import Mathlib

/-!
# GPIO pin driver of the Circle bare-metal environment (`lib/gpiopin.cpp`)

A shallow embedding of `CGPIOPin`: the pin object, a simulated register file,
and the trace of externally visible effects (register accesses, barriers,
delays, dispatcher calls, callback invocations).  A failed `assert` aborts the
operation and keeps the world as it was at the moment of the failure.
-/

set_option linter.dupNamespace false

namespace Circle

/-! ## Constants and enumerations of the missing headers -/

/-- Modelled from the spec: the constant `GPIO_PINS` of `gpiopin.h` (header not
available); the pin count `PIN_COUNT` of the data model, 54 lines. -/
def GPIO_PINS : Nat := 54

/-- Modelled from the spec: the level `Low` (`LOW` of `gpiopin.h`). -/
def LOW : Nat := 0

/-- Modelled from the spec: the level `High` (`HIGH` of `gpiopin.h`). -/
def HIGH : Nat := 1

/-- Modelled from the spec: the enumeration `TGPIOMode` of `gpiopin.h` (header
not available).  The enumerators are the ones `gpiopin.cpp` names.  Their order
is the one under which its comparisons mean what the specification says:
`m_Mode < GPIOModeAlternateFunction0` in `Write` holds for the modes that are
not alternate functions (input, output and the two pull modes, in the order of
the `switch` in `SetMode`), the six alternate functions are consecutive, and
`Mode < GPIOModeUnknown` holds for every mode but the unknown one. -/
inductive TGPIOMode where
  | GPIOModeInput
  | GPIOModeOutput
  | GPIOModeInputPullUp
  | GPIOModeInputPullDown
  | GPIOModeAlternateFunction0
  | GPIOModeAlternateFunction1
  | GPIOModeAlternateFunction2
  | GPIOModeAlternateFunction3
  | GPIOModeAlternateFunction4
  | GPIOModeAlternateFunction5
  | GPIOModeUnknown
  deriving DecidableEq, Repr

/-- Integer value of a mode enumerator. -/
def TGPIOMode.toNat : TGPIOMode → Nat
  | .GPIOModeInput => 0
  | .GPIOModeOutput => 1
  | .GPIOModeInputPullUp => 2
  | .GPIOModeInputPullDown => 3
  | .GPIOModeAlternateFunction0 => 4
  | .GPIOModeAlternateFunction1 => 5
  | .GPIOModeAlternateFunction2 => 6
  | .GPIOModeAlternateFunction3 => 7
  | .GPIOModeAlternateFunction4 => 8
  | .GPIOModeAlternateFunction5 => 9
  | .GPIOModeUnknown => 10

/-- Modelled from the spec: the enumeration `TGPIOInterrupt` of `gpiopin.h`
(header not available): the six edge and level kinds in the order of their
enable registers, then the value meaning that no kind is enabled. -/
inductive TGPIOInterrupt where
  | GPIOInterruptOnRisingEdge
  | GPIOInterruptOnFallingEdge
  | GPIOInterruptOnHighLevel
  | GPIOInterruptOnLowLevel
  | GPIOInterruptOnAsyncRisingEdge
  | GPIOInterruptOnAsyncFallingEdge
  | GPIOInterruptUnknown
  deriving DecidableEq, Repr

/-- Integer value of an interrupt-kind enumerator. -/
def TGPIOInterrupt.toNat : TGPIOInterrupt → Nat
  | .GPIOInterruptOnRisingEdge => 0
  | .GPIOInterruptOnFallingEdge => 1
  | .GPIOInterruptOnHighLevel => 2
  | .GPIOInterruptOnLowLevel => 3
  | .GPIOInterruptOnAsyncRisingEdge => 4
  | .GPIOInterruptOnAsyncFallingEdge => 5
  | .GPIOInterruptUnknown => 6

/-- The register addresses `ARM_GPIO_*` of `bcm2835.h` (header not available),
taken as a parameter of the model. -/
structure RegMap where
  ARM_GPIO_GPFSEL0 : Nat
  ARM_GPIO_GPSET0 : Nat
  ARM_GPIO_GPCLR0 : Nat
  ARM_GPIO_GPLEV0 : Nat
  ARM_GPIO_GPREN0 : Nat
  ARM_GPIO_GPPUD : Nat
  ARM_GPIO_GPPUDCLK0 : Nat
  deriving DecidableEq, Repr

/-- The register banks the driver addresses, each as (first address, size in
bytes): six function-select words, two set, two clear and two level words, the
edge-enable words (six kinds 12 bytes apart, two banks each), the pull-control
word and two pull-clock words. -/
def RegMap.banks (M : RegMap) : List (Nat × Nat) :=
  [(M.ARM_GPIO_GPFSEL0, 24), (M.ARM_GPIO_GPSET0, 8), (M.ARM_GPIO_GPCLR0, 8),
   (M.ARM_GPIO_GPLEV0, 8), (M.ARM_GPIO_GPREN0, 68), (M.ARM_GPIO_GPPUD, 4),
   (M.ARM_GPIO_GPPUDCLK0, 8)]

/-- Two address ranges do not overlap. -/
def Apart (a b : Nat × Nat) : Prop := a.1 + a.2 ≤ b.1 ∨ b.1 + b.2 ≤ a.1

instance (a b : Nat × Nat) : Decidable (Apart a b) := by
  unfold Apart; infer_instance

/-- A register map is well formed when every bank lies inside the 32-bit
address space and no two banks overlap. -/
def RegMap.WellFormed (M : RegMap) : Prop :=
  (∀ b ∈ M.banks, b.1 + b.2 ≤ 4294967296) ∧ M.banks.Pairwise Apart

instance (M : RegMap) : Decidable M.WellFormed := by
  unfold RegMap.WellFormed; infer_instance

/-- The GPIO register addresses of the BCM2835 peripheral block at 0x20200000,
used as the concrete instance of the register map. -/
def bcm2835 : RegMap where
  ARM_GPIO_GPFSEL0 := 0x20200000
  ARM_GPIO_GPSET0 := 0x2020001C
  ARM_GPIO_GPCLR0 := 0x20200028
  ARM_GPIO_GPLEV0 := 0x20200034
  ARM_GPIO_GPREN0 := 0x2020004C
  ARM_GPIO_GPPUD := 0x20200094
  ARM_GPIO_GPPUDCLK0 := 0x20200098

/-! ## Machine words -/

/-- Truncation to an `unsigned` (32-bit) value. -/
def u32 (x : Nat) : Nat := x % 4294967296

/-- Bitwise complement `~x` of a 32-bit value. -/
def not32 (x : Nat) : Nat := 4294967295 ^^^ u32 x

/-! ## State, effects and the operation monad -/

/-- Externally visible effects of the driver, in program order. -/
inductive Effect where
  /-- `DataMemBarrier ()` -/
  | barrier
  /-- `read32 (addr)` -/
  | read (addr : Nat)
  /-- `write32 (addr, val)` -/
  | write (addr val : Nat)
  /-- `CTimer::SimpleusDelay (n)` -/
  | delay (n : Nat)
  /-- `m_pManager->ConnectInterrupt (this)`, for the pin with this index -/
  | connect (manager pin : Nat)
  /-- `m_pManager->DisconnectInterrupt (this)`, for the pin with this index -/
  | disconnect (manager pin : Nat)
  /-- `(*m_pHandler) (m_pParam)` -/
  | call (handler param : Nat)
  deriving DecidableEq, Repr

/-- The data members of `CGPIOPin`.  Pointers are addresses, 0 being the null
pointer. -/
structure CGPIOPin where
  m_nPin : Nat
  m_Mode : TGPIOMode
  m_nValue : Nat
  m_pManager : Nat
  m_pHandler : Nat
  m_pParam : Nat
  m_Interrupt : TGPIOInterrupt
  deriving DecidableEq, Repr

/-- One pin object, the simulated register file (address to word) and the
effects emitted so far. -/
structure World where
  pin : CGPIOPin
  regs : Nat → Nat
  trace : List Effect

/-- Result of running an operation: it returned a value, or an `assert`
failed; either way with the world as it then was. -/
inductive Outcome (α : Type) where
  | done (a : α) (w : World)
  | abort (w : World)

/-- The world an outcome ends in. -/
def Outcome.world {α : Type} : Outcome α → World
  | .done _ w => w
  | .abort w => w

/-- Whether the operation ran to completion. -/
def Outcome.isDone {α : Type} : Outcome α → Bool
  | .done _ _ => true
  | .abort _ => false

/-- An operation of the driver. -/
def Op (α : Type) : Type := World → Outcome α

/-- Sequencing: an abort stops the operation. -/
def Op.bind {α β : Type} (m : Op α) (f : α → Op β) : Op β := fun w =>
  match m w with
  | .done a w1 => f a w1
  | .abort w1 => .abort w1

instance : Monad Op where
  pure a := fun w => .done a w
  bind := Op.bind

/-- The macro `assert (cond)`. -/
def assert (cond : Bool) : Op Unit := fun w =>
  if cond then .done () w else .abort w

/-- Current value of the data members. -/
def getPin : Op CGPIOPin := fun w => .done w.pin w

/-- Assignment to data members. -/
def modifyPin (f : CGPIOPin → CGPIOPin) : Op Unit := fun w =>
  .done () { w with pin := f w.pin }

/-- The barrier `DataMemBarrier ()` of `synchronize.h`. -/
def DataMemBarrier : Op Unit := fun w =>
  .done () { w with trace := w.trace ++ [Effect.barrier] }

/-- The primitive `read32` of `memio.h`: the 32-bit word at an address. -/
def read32 (nAddress : Nat) : Op Nat := fun w =>
  .done (u32 (w.regs nAddress)) { w with trace := w.trace ++ [Effect.read nAddress] }

/-- The primitive `write32` of `memio.h`: stores a 32-bit word at an address. -/
def write32 (nAddress nValue : Nat) : Op Unit := fun w =>
  .done () { w with
    regs := Function.update w.regs nAddress (u32 nValue)
    trace := w.trace ++ [Effect.write nAddress (u32 nValue)] }

/-- The delay `CTimer::SimpleusDelay` of `timer.h`. -/
def SimpleusDelay (nMicroSeconds : Nat) : Op Unit := fun w =>
  .done () { w with trace := w.trace ++ [Effect.delay nMicroSeconds] }

/-- An effect of an external collaborator (dispatcher call, callback). -/
def emit (e : Effect) : Op Unit := fun w =>
  .done () { w with trace := w.trace ++ [e] }

/-! ## The member functions of `CGPIOPin` -/

namespace CGPIOPin

/-- `CGPIOPin::SetPullUpMode` -/
def SetPullUpMode (M : RegMap) (nMode : Nat) : Op Unit := do
  let p ← getPin
  assert (p.m_nPin < GPIO_PINS)
  let nClkReg := u32 (M.ARM_GPIO_GPPUDCLK0 + (p.m_nPin / 32) * 4)
  let nShift := p.m_nPin % 32
  assert (nMode ≤ 2)
  write32 M.ARM_GPIO_GPPUD nMode
  SimpleusDelay 150
  write32 nClkReg (1 <<< nShift)
  SimpleusDelay 150
  write32 M.ARM_GPIO_GPPUD 0
  write32 nClkReg 0

/-- The table `FunctionMap` of `CGPIOPin::SetAlternateFunction`. -/
def FunctionMap : List Nat := [4, 5, 6, 7, 3, 2]

/-- `CGPIOPin::SetAlternateFunction` -/
def SetAlternateFunction (M : RegMap) (nFunction : Nat) : Op Unit := do
  let p ← getPin
  assert (p.m_nPin < GPIO_PINS)
  let nSelReg := u32 (M.ARM_GPIO_GPFSEL0 + (p.m_nPin / 10) * 4)
  let nShift := (p.m_nPin % 10) * 3
  assert (nFunction ≤ 5)
  let nValue ← read32 nSelReg
  let nValue := nValue &&& not32 (7 <<< nShift)
  let nValue := nValue ||| u32 (FunctionMap.getD nFunction 0 <<< nShift)
  write32 nSelReg nValue

/-- `CGPIOPin::Write` -/
def Write (M : RegMap) (nValue : Nat) : Op Unit := do
  let p ← getPin
  assert (p.m_Mode.toNat < TGPIOMode.GPIOModeAlternateFunction0.toNat)
  DataMemBarrier
  assert (nValue = LOW ∨ nValue = HIGH)
  modifyPin (fun q => { q with m_nValue := nValue })
  let p ← getPin
  assert (p.m_nPin < GPIO_PINS)
  let nSetClrReg :=
    u32 ((if p.m_nValue ≠ 0 then M.ARM_GPIO_GPSET0 else M.ARM_GPIO_GPCLR0) + (p.m_nPin / 32) * 4)
  let nShift := p.m_nPin % 32
  write32 nSetClrReg (1 <<< nShift)
  DataMemBarrier

/-- `CGPIOPin::SetMode` -/
def SetMode (M : RegMap) (Mode : TGPIOMode) (bInitPin : Bool) : Op Unit := do
  assert (Mode.toNat < TGPIOMode.GPIOModeUnknown.toNat)
  modifyPin (fun q => { q with m_Mode := Mode })
  DataMemBarrier
  let p ← getPin
  if TGPIOMode.GPIOModeAlternateFunction0.toNat ≤ p.m_Mode.toNat
      ∧ p.m_Mode.toNat ≤ TGPIOMode.GPIOModeAlternateFunction5.toNat then
    if bInitPin then
      SetPullUpMode M 0
    SetAlternateFunction M (p.m_Mode.toNat - TGPIOMode.GPIOModeAlternateFunction0.toNat)
    DataMemBarrier
  else
    if bInitPin ∧ p.m_Mode = TGPIOMode.GPIOModeOutput then
      SetPullUpMode M 0
    assert (p.m_nPin < GPIO_PINS)
    let nSelReg := u32 (M.ARM_GPIO_GPFSEL0 + (p.m_nPin / 10) * 4)
    let nShift := (p.m_nPin % 10) * 3
    let nValue ← read32 nSelReg
    let nValue := nValue &&& not32 (7 <<< nShift)
    let nValue := nValue ||| u32 ((if p.m_Mode = TGPIOMode.GPIOModeOutput then 1 else 0) <<< nShift)
    write32 nSelReg nValue
    if bInitPin then
      match p.m_Mode with
      | .GPIOModeInput => SetPullUpMode M 0
      | .GPIOModeOutput => Write M LOW
      | .GPIOModeInputPullUp => SetPullUpMode M 2
      | .GPIOModeInputPullDown => SetPullUpMode M 1
      | _ => pure ()
    DataMemBarrier

/-- The mode is one of the three input modes (the assertion shared by `Read`
and the interrupt functions). -/
def isInputMode (m : TGPIOMode) : Bool :=
  m = TGPIOMode.GPIOModeInput ∨ m = TGPIOMode.GPIOModeInputPullUp
    ∨ m = TGPIOMode.GPIOModeInputPullDown

/-- `CGPIOPin::Read` -/
def Read (M : RegMap) : Op Nat := do
  let p ← getPin
  assert (isInputMode p.m_Mode)
  DataMemBarrier
  assert (p.m_nPin < GPIO_PINS)
  let nLevReg := u32 (M.ARM_GPIO_GPLEV0 + (p.m_nPin / 32) * 4)
  let nShift := p.m_nPin % 32
  let nLev ← read32 nLevReg
  let nResult := if nLev &&& u32 (1 <<< nShift) ≠ 0 then HIGH else LOW
  DataMemBarrier
  pure nResult

/-- `CGPIOPin::Invert` -/
def Invert (M : RegMap) : Op Unit := do
  let p ← getPin
  assert (p.m_Mode = TGPIOMode.GPIOModeOutput)
  Write M (p.m_nValue ^^^ 1)

/-- `CGPIOPin::ConnectInterrupt` -/
def ConnectInterrupt (pHandler pParam : Nat) : Op Unit := do
  let p ← getPin
  assert (isInputMode p.m_Mode)
  assert (p.m_Interrupt = TGPIOInterrupt.GPIOInterruptUnknown)
  assert (pHandler ≠ 0)
  assert (p.m_pHandler = 0)
  modifyPin (fun q => { q with m_pHandler := pHandler })
  modifyPin (fun q => { q with m_pParam := pParam })
  assert (p.m_pManager ≠ 0)
  emit (Effect.connect p.m_pManager p.m_nPin)

/-- `CGPIOPin::DisconnectInterrupt` -/
def DisconnectInterrupt : Op Unit := do
  let p ← getPin
  assert (isInputMode p.m_Mode)
  assert (p.m_Interrupt = TGPIOInterrupt.GPIOInterruptUnknown)
  assert (p.m_pHandler ≠ 0)
  modifyPin (fun q => { q with m_pHandler := 0 })
  assert (p.m_pManager ≠ 0)
  emit (Effect.disconnect p.m_pManager p.m_nPin)

/-- `CGPIOPin::EnableInterrupt` -/
def EnableInterrupt (M : RegMap) (Interrupt : TGPIOInterrupt) : Op Unit := do
  let p ← getPin
  assert (isInputMode p.m_Mode)
  assert (p.m_pManager ≠ 0)
  assert (p.m_pHandler ≠ 0)
  assert (p.m_Interrupt = TGPIOInterrupt.GPIOInterruptUnknown)
  assert (Interrupt.toNat < TGPIOInterrupt.GPIOInterruptUnknown.toNat)
  modifyPin (fun q => { q with m_Interrupt := Interrupt })
  assert (p.m_nPin < GPIO_PINS)
  let nReg := u32 (M.ARM_GPIO_GPREN0 + (p.m_nPin / 32) * 4
    + (Interrupt.toNat - TGPIOInterrupt.GPIOInterruptOnRisingEdge.toNat) * 12)
  let nMask := u32 (1 <<< (p.m_nPin % 32))
  let nOld ← read32 nReg
  write32 nReg (nOld ||| nMask)

/-- `CGPIOPin::DisableInterrupt` -/
def DisableInterrupt (M : RegMap) : Op Unit := do
  let p ← getPin
  assert (isInputMode p.m_Mode)
  assert (p.m_Interrupt.toNat < TGPIOInterrupt.GPIOInterruptUnknown.toNat)
  assert (p.m_nPin < GPIO_PINS)
  let nReg := u32 (M.ARM_GPIO_GPREN0 + (p.m_nPin / 32) * 4
    + (p.m_Interrupt.toNat - TGPIOInterrupt.GPIOInterruptOnRisingEdge.toNat) * 12)
  let nMask := u32 (1 <<< (p.m_nPin % 32))
  let nOld ← read32 nReg
  write32 nReg (nOld &&& not32 nMask)
  modifyPin (fun q => { q with m_Interrupt := TGPIOInterrupt.GPIOInterruptUnknown })

/-- `CGPIOPin::InterruptHandler` -/
def InterruptHandler : Op Unit := do
  let p ← getPin
  assert (isInputMode p.m_Mode)
  assert (p.m_Interrupt.toNat < TGPIOInterrupt.GPIOInterruptUnknown.toNat)
  assert (p.m_pHandler ≠ 0)
  emit (Effect.call p.m_pHandler p.m_pParam)

/-- `CGPIOPin::CGPIOPin`: the constructor.  The members `m_nValue` and
`m_pParam` have no initialiser; their indeterminate initial values are the
arguments `nValue0` and `pParam0`. -/
def CGPIOPin (M : RegMap) (nPin : Nat) (Mode : TGPIOMode) (pManager : Nat)
    (nValue0 pParam0 : Nat) (regs : Nat → Nat) : Outcome Unit :=
  (do
    let p ← getPin
    assert (p.m_nPin < GPIO_PINS)
    SetMode M Mode true : Op Unit)
  { pin :=
      { m_nPin := nPin
        m_Mode := TGPIOMode.GPIOModeUnknown
        m_nValue := nValue0
        m_pManager := pManager
        m_pHandler := 0
        m_pParam := pParam0
        m_Interrupt := TGPIOInterrupt.GPIOInterruptUnknown }
    regs := regs
    trace := [] }

end CGPIOPin

/-! ## Definitions used to state the properties -/

/-- The 3-bit function-select field of a pin: bits `(nPin % 10) * 3` and the two
above it of the function-select word number `nPin / 10`. -/
def fselField (M : RegMap) (regs : Nat → Nat) (nPin : Nat) : Nat :=
  (u32 (regs (M.ARM_GPIO_GPFSEL0 + (nPin / 10) * 4)) >>> ((nPin % 10) * 3)) &&& 7

/-- The function-select encoding as the specification states it: 0 for the
input modes, 1 for output, and 4, 5, 6, 7, 3, 2 for the alternate functions
0 to 5. -/
def specFunctionSelect : TGPIOMode → Nat
  | .GPIOModeInput => 0
  | .GPIOModeOutput => 1
  | .GPIOModeInputPullUp => 0
  | .GPIOModeInputPullDown => 0
  | .GPIOModeAlternateFunction0 => 4
  | .GPIOModeAlternateFunction1 => 5
  | .GPIOModeAlternateFunction2 => 6
  | .GPIOModeAlternateFunction3 => 7
  | .GPIOModeAlternateFunction4 => 3
  | .GPIOModeAlternateFunction5 => 2
  | .GPIOModeUnknown => 0

/-- The call sequence of the interrupt lifecycle: connect, enable, one
interrupt, disable, disconnect.  It is done only if every step is. -/
def interruptCycle (M : RegMap) (pHandler pParam : Nat) (Interrupt : TGPIOInterrupt) :
    Op Unit := do
  CGPIOPin.ConnectInterrupt pHandler pParam
  CGPIOPin.EnableInterrupt M Interrupt
  CGPIOPin.InterruptHandler
  CGPIOPin.DisableInterrupt M
  CGPIOPin.DisconnectInterrupt

/-- A world with the given pin object, all registers zero and no effect yet. -/
def freshWorld (p : CGPIOPin) : World :=
  { pin := p, regs := fun _ => 0, trace := [] }

/-- Pin 17 as an input with a dispatcher (at address 1), no handler, no edge. -/
def inputPin : CGPIOPin :=
  { m_nPin := 17
    m_Mode := TGPIOMode.GPIOModeInput
    m_nValue := 0
    m_pManager := 1
    m_pHandler := 0
    m_pParam := 0
    m_Interrupt := TGPIOInterrupt.GPIOInterruptUnknown }

/-- Pin 17 as an input constructed without a dispatcher. -/
def loosePin : CGPIOPin := { inputPin with m_pManager := 0 }

/-- Pin 17 as an input with handler 64 and context 5 connected, no edge. -/
def connectedPin : CGPIOPin := { inputPin with m_pHandler := 64, m_pParam := 5 }

/-- Pin 17 as an input with handler 64 and context 5, rising edge enabled. -/
def enabledPin : CGPIOPin :=
  { connectedPin with m_Interrupt := TGPIOInterrupt.GPIOInterruptOnRisingEdge }

/-- Pin 17 as an output. -/
def outputPin : CGPIOPin := { inputPin with m_Mode := TGPIOMode.GPIOModeOutput }

/-- Pin 17 switched to alternate function 0. -/
def altPin : CGPIOPin := { inputPin with m_Mode := TGPIOMode.GPIOModeAlternateFunction0 }

/-- Whether an effect is an access to a hardware register. -/
def Effect.isAccess : Effect → Bool
  | .read _ => true
  | .write _ _ => true
  | _ => false

/-- A barrier comes before the first register access of the trace (true of a
trace without register access). -/
def barrierBeforeAccess : List Effect → Bool
  | [] => true
  | Effect.barrier :: _ => true
  | e :: t => !e.isAccess && barrierBeforeAccess t

/-- The register accesses of a trace are bracketed: a barrier comes before the
first one and a barrier comes after the last one. -/
def bracketed (t : List Effect) : Bool :=
  barrierBeforeAccess t && barrierBeforeAccess t.reverse

/-- The effects an operation emits in a world: what it appends to the trace. -/
def emitted {α : Type} (op : Op α) (w : World) : List Effect :=
  (op w).world.trace.drop w.trace.length

/-- No effect of the trace is an access to a hardware register. -/
def noAccess (t : List Effect) : Bool :=
  t.all (fun e => !e.isAccess)

/-- The public operations of a pin object after its construction, with their
arguments. -/
inductive PinOp where
  | SetMode (Mode : TGPIOMode) (bInitPin : Bool)
  | Write (nValue : Nat)
  | Read
  | Invert
  | ConnectInterrupt (pHandler pParam : Nat)
  | DisconnectInterrupt
  | EnableInterrupt (Interrupt : TGPIOInterrupt)
  | DisableInterrupt
  | InterruptHandler
  deriving DecidableEq, Repr

/-- Runs a public operation on the pin; the level that `Read` returns is
dropped. -/
def PinOp.run (M : RegMap) : PinOp → Op Unit
  | .SetMode Mode bInitPin => CGPIOPin.SetMode M Mode bInitPin
  | .Write nValue => CGPIOPin.Write M nValue
  | .Read => fun w =>
      match CGPIOPin.Read M w with
      | .done _ w1 => .done () w1
      | .abort w1 => .abort w1
  | .Invert => CGPIOPin.Invert M
  | .ConnectInterrupt pHandler pParam => CGPIOPin.ConnectInterrupt pHandler pParam
  | .DisconnectInterrupt => CGPIOPin.DisconnectInterrupt
  | .EnableInterrupt Interrupt => CGPIOPin.EnableInterrupt M Interrupt
  | .DisableInterrupt => CGPIOPin.DisableInterrupt M
  | .InterruptHandler => CGPIOPin.InterruptHandler

/-- Runs a sequence of public operations, stopping at the first rejection. -/
def runOps (M : RegMap) : List PinOp → Op Unit
  | [] => pure ()
  | op :: ops => do
      op.run M
      runOps M ops

/-- The worlds reachable from a successful construction by successful public
operations for which `allowed` holds in the world they start from.  Between
operations the hardware may change the content of the registers. -/
inductive ReachableBy (M : RegMap) (allowed : World → PinOp → Prop) : World → Prop where
  | construct (nPin : Nat) (Mode : TGPIOMode) (pManager nValue0 pParam0 : Nat)
      (regs : Nat → Nat) (w : World) :
      CGPIOPin.CGPIOPin M nPin Mode pManager nValue0 pParam0 regs = Outcome.done () w →
      ReachableBy M allowed w
  | step (w : World) (op : PinOp) (w1 : World) :
      ReachableBy M allowed w → allowed w op → op.run M w = Outcome.done () w1 →
      ReachableBy M allowed w1
  | hardware (w : World) (regs : Nat → Nat) :
      ReachableBy M allowed w → ReachableBy M allowed { w with regs := regs }

/-- The worlds reachable from a successful construction by any sequence of
successful public operations. -/
def Reachable (M : RegMap) (w : World) : Prop :=
  ReachableBy M (fun _ _ => True) w

/-- The restriction on `SetMode` under which the mode stays an input mode
while an edge kind is enabled: `SetMode` is called with no edge kind enabled,
or with an input mode as its target.  Every other operation is allowed. -/
def modeKeptWhileEnabled (w : World) : PinOp → Prop
  | .SetMode Mode _ =>
      w.pin.m_Interrupt = TGPIOInterrupt.GPIOInterruptUnknown
        ∨ CGPIOPin.isInputMode Mode = true
  | _ => True

/-- The effects of the pull-resistor sequence of a pin for a pull code, as the
specification lists them: control = code, delay, clock = bit, delay,
control = 0, clock = 0. -/
def pullSequence (M : RegMap) (nPin nMode : Nat) : List Effect :=
  [Effect.write M.ARM_GPIO_GPPUD nMode,
   Effect.delay 150,
   Effect.write (M.ARM_GPIO_GPPUDCLK0 + (nPin / 32) * 4) (1 <<< (nPin % 32)),
   Effect.delay 150,
   Effect.write M.ARM_GPIO_GPPUD 0,
   Effect.write (M.ARM_GPIO_GPPUDCLK0 + (nPin / 32) * 4) 0]

/-- The function-select word after the field at bit `nShift` of the word
`nOld` is replaced by `nCode`: the value `SetMode` and `SetAlternateFunction`
write back. -/
def fselWord (nOld nShift nCode : Nat) : Nat :=
  u32 (u32 nOld &&& not32 (7 <<< nShift) ||| u32 (nCode <<< nShift))

/-- The address `nReg` that `EnableInterrupt` and `DisableInterrupt` compute
for a pin and an edge kind. -/
def enableReg (M : RegMap) (nPin : Nat) (Interrupt : TGPIOInterrupt) : Nat :=
  u32 (M.ARM_GPIO_GPREN0 + (nPin / 32) * 4
    + (Interrupt.toNat - TGPIOInterrupt.GPIOInterruptOnRisingEdge.toNat) * 12)

/-- Bit `i` of the 32-bit word that `read32` finds at an address. -/
def regBit (regs : Nat → Nat) (nAddress i : Nat) : Bool :=
  (u32 (regs nAddress)).testBit i

/-- Pin 17 as an output whose cached level is the indeterminate value 7 that
the constructor left in `m_nValue`. -/
def staleOutputPin : CGPIOPin := { outputPin with m_nValue := 7 }

/-- The world after pin 17 of the BCM2835 is constructed as an input with a
dispatcher (at address 1), over an all-zero register file, the members without
initialiser holding 7 (`m_nValue`) and 0 (`m_pParam`). -/
def constructedWorld : World :=
  (CGPIOPin.CGPIOPin bcm2835 17 TGPIOMode.GPIOModeInput 1 7 0 (fun _ => 0)).world

/-- The constructed pin 17 after handler 64 with context 5 is connected and the
rising edge is enabled. -/
def enabledWorld : World :=
  (runOps bcm2835
    [PinOp.ConnectInterrupt 64 5,
     PinOp.EnableInterrupt TGPIOInterrupt.GPIOInterruptOnRisingEdge] constructedWorld).world

/-- The constructed pin 17 with the rising edge enabled, then switched to
output without pin initialisation. -/
def enabledOutputWorld : World :=
  (runOps bcm2835 [PinOp.SetMode TGPIOMode.GPIOModeOutput false] enabledWorld).world

/-- The constructed pin 17 switched to output without pin initialisation,
nothing having been written before. -/
def staleOutputWorld : World :=
  (runOps bcm2835 [PinOp.SetMode TGPIOMode.GPIOModeOutput false] constructedWorld).world

end Circle
/-! ## Auxiliary lemmas -/

namespace Circle

open CGPIOPin

theorem Op.bind_apply {α β : Type} (m : Op α) (f : α → Op β) (w : World) :
    (m >>= f) w = match m w with
      | .done a w1 => f a w1
      | .abort w1 => .abort w1 := rfl

theorem Op.pure_apply {α : Type} (a : α) (w : World) :
    (pure a : Op α) w = .done a w := rfl

theorem u32_of_lt {x : Nat} (h : x < 4294967296) : u32 x = x := Nat.mod_eq_of_lt h

theorem one_shiftLeft_lt {n : Nat} (h : n < 32) : 1 <<< n < 4294967296 := by
  rw [Nat.one_shiftLeft]
  calc 2 ^ n < 2 ^ 32 := Nat.pow_lt_pow_right (by decide) h
    _ = 4294967296 := by norm_num

theorem u32_one_shiftLeft {n : Nat} (h : n < 32) : u32 (1 <<< n) = 1 <<< n :=
  u32_of_lt (one_shiftLeft_lt h)

theorem u32_one_shiftLeft_pow (n : Nat) : u32 (1 <<< n) = 2 ^ n % 2 ^ 32 := by
  rw [Nat.one_shiftLeft]
  rfl

theorem testBit_u32 (x : Nat) {n : Nat} (h : n < 32) : (u32 x).testBit n = x.testBit n := by
  have e32 : (4294967296 : Nat) = 2 ^ 32 := by norm_num
  simp only [u32, e32, Nat.testBit_mod_two_pow, h, decide_True, Bool.true_and]

/-- Masking with a single bit is non-zero exactly when that bit is set. -/
theorem and_one_shiftLeft_ne_zero (x n : Nat) : x &&& 1 <<< n ≠ 0 ↔ x.testBit n = true := by
  rw [Nat.one_shiftLeft]
  constructor
  · intro h
    by_contra hb
    apply h
    apply Nat.eq_of_testBit_eq
    intro i
    rw [Nat.testBit_and, Nat.testBit_two_pow, Nat.zero_testBit]
    by_cases hi : n = i
    · subst hi
      simp [hb]
    · simp [hi]
  · intro hb h
    have := congrArg (fun y => Nat.testBit y n) h
    simp [Nat.testBit_and, Nat.testBit_two_pow_self, hb] at this

/-- The banks of a well-formed map lie inside the 32-bit address space. -/
theorem RegMap.WellFormed.bounds {M : RegMap} (hM : M.WellFormed) :
    M.ARM_GPIO_GPFSEL0 + 24 ≤ 4294967296 ∧ M.ARM_GPIO_GPSET0 + 8 ≤ 4294967296
    ∧ M.ARM_GPIO_GPCLR0 + 8 ≤ 4294967296 ∧ M.ARM_GPIO_GPLEV0 + 8 ≤ 4294967296
    ∧ M.ARM_GPIO_GPREN0 + 68 ≤ 4294967296 ∧ M.ARM_GPIO_GPPUD + 4 ≤ 4294967296
    ∧ M.ARM_GPIO_GPPUDCLK0 + 8 ≤ 4294967296 := by
  have h := hM.1
  simp only [RegMap.banks, List.forall_mem_cons, List.not_mem_nil, IsEmpty.forall_iff,
    implies_true, and_true] at h
  exact h

/-- The function-select bank of a well-formed map overlaps neither the clear
bank, nor the pull-control word, nor the pull-clock bank. -/
theorem RegMap.WellFormed.fsel_apart {M : RegMap} (hM : M.WellFormed) :
    Apart (M.ARM_GPIO_GPFSEL0, 24) (M.ARM_GPIO_GPCLR0, 8)
    ∧ Apart (M.ARM_GPIO_GPFSEL0, 24) (M.ARM_GPIO_GPPUD, 4)
    ∧ Apart (M.ARM_GPIO_GPFSEL0, 24) (M.ARM_GPIO_GPPUDCLK0, 8) := by
  have h := hM.2
  simp only [RegMap.banks, List.pairwise_cons, List.mem_cons, forall_eq_or_imp] at h
  exact ⟨h.1.2.1, h.1.2.2.2.2.1, h.1.2.2.2.2.2.1⟩

/-- Clearing a 3-bit field of a word and or-ing a code below 8 into it makes
the field read back as that code. -/
theorem field_readback (v s c : Nat) (hs : s + 3 ≤ 32) (hc : c < 8) :
    (u32 (u32 (u32 v &&& not32 (7 <<< s) ||| u32 (c <<< s))) >>> s) &&& 7 = c := by
  apply Nat.eq_of_testBit_eq
  intro i
  have e32 : (4294967296 : Nat) = 2 ^ 32 := by norm_num
  have e31 : (4294967295 : Nat) = 2 ^ 32 - 1 := by norm_num
  have e7 : (7 : Nat) = 2 ^ 3 - 1 := by norm_num
  simp only [u32, not32, e32, e31]
  rw [e7]
  simp only [Nat.testBit_and, Nat.testBit_shiftRight, Nat.testBit_mod_two_pow, Nat.testBit_or,
    Nat.testBit_xor, Nat.testBit_shiftLeft, Nat.testBit_two_pow_sub_one]
  by_cases hi : i < 3
  · have h1 : s + i < 32 := by omega
    have h2 : s + i ≥ s := by omega
    have h3 : s + i - s = i := by omega
    simp [hi, h1, h2, h3]
  · have : c.testBit i = false := by
      apply Nat.testBit_eq_false_of_lt
      calc c < 2 ^ 3 := by omega
        _ ≤ 2 ^ i := Nat.pow_le_pow_right (by decide) (by omega)
    simp [hi, this]

theorem bcm2835_wellFormed : bcm2835.WellFormed := by decide

/-! ## Function select -/

set_option maxHeartbeats 1000000 in
/-- C1: for a valid pin index, every mode other than `GPIOModeUnknown`, both
values of `bInitPin` and every register content, `SetMode` returns and the
pin's function-select field then reads back as 0 for the input modes, 1 for
output and 4, 5, 6, 7, 3, 2 for the alternate functions 0 to 5. -/
theorem SetMode_function_select (M : RegMap) (w : World) (Mode : TGPIOMode) (bInitPin : Bool)
    (hM : M.WellFormed) (hp : w.pin.m_nPin < GPIO_PINS)
    (hmode : Mode ≠ TGPIOMode.GPIOModeUnknown) :
    (SetMode M Mode bInitPin w).isDone = true
    ∧ fselField M (SetMode M Mode bInitPin w).world.regs w.pin.m_nPin
        = specFunctionSelect Mode := by
  have hb := hM.bounds
  obtain ⟨a1, a2, a3⟩ := hM.fsel_apart
  simp only [Apart, GPIO_PINS] at a1 a2 a3 hp
  have hf : u32 (M.ARM_GPIO_GPFSEL0 + (w.pin.m_nPin / 10) * 4)
      = M.ARM_GPIO_GPFSEL0 + (w.pin.m_nPin / 10) * 4 := u32_of_lt (by omega)
  have hc : u32 (M.ARM_GPIO_GPPUDCLK0 + (w.pin.m_nPin / 32) * 4)
      = M.ARM_GPIO_GPPUDCLK0 + (w.pin.m_nPin / 32) * 4 := u32_of_lt (by omega)
  have hl : u32 (M.ARM_GPIO_GPCLR0 + (w.pin.m_nPin / 32) * 4)
      = M.ARM_GPIO_GPCLR0 + (w.pin.m_nPin / 32) * 4 := u32_of_lt (by omega)
  have n1 : M.ARM_GPIO_GPFSEL0 + (w.pin.m_nPin / 10) * 4 ≠ M.ARM_GPIO_GPPUD := by omega
  have n2 : M.ARM_GPIO_GPFSEL0 + (w.pin.m_nPin / 10) * 4
      ≠ M.ARM_GPIO_GPPUDCLK0 + (w.pin.m_nPin / 32) * 4 := by omega
  have n3 : M.ARM_GPIO_GPFSEL0 + (w.pin.m_nPin / 10) * 4
      ≠ M.ARM_GPIO_GPCLR0 + (w.pin.m_nPin / 32) * 4 := by omega
  have hs : (w.pin.m_nPin % 10) * 3 + 3 ≤ 32 := by omega
  have key := fun c hc => field_readback (w.regs (M.ARM_GPIO_GPFSEL0 + (w.pin.m_nPin / 10) * 4))
    ((w.pin.m_nPin % 10) * 3) c hs hc
  have k0 := key 0 (by decide)
  rw [Nat.zero_shiftLeft] at k0
  have k1 := key 1 (by decide)
  have k2 := key 2 (by decide)
  have k3 := key 3 (by decide)
  have k4 := key 4 (by decide)
  have k5 := key 5 (by decide)
  have k6 := key 6 (by decide)
  have k7 := key 7 (by decide)
  cases Mode <;> cases bInitPin <;>
    first
    | exact absurd rfl hmode
    | simp [SetMode, SetPullUpMode, SetAlternateFunction, Write, Op.bind_apply, Op.pure_apply, assert,
        getPin, modifyPin, DataMemBarrier, read32, write32, SimpleusDelay, GPIO_PINS, hp, hf, hc, hl,
        n1, n2, n3, Outcome.isDone, Outcome.world, TGPIOMode.toNat, fselField, specFunctionSelect,
        Function.update_noteq, LOW, HIGH, FunctionMap, k0, k1, k2, k3, k4, k5, k6, k7]

/-- Witness: pin 17 of the BCM2835, switched to alternate function 4 with
pin initialisation, reads back the code 3. -/
theorem SetMode_function_select_witness :
    bcm2835.WellFormed ∧ (freshWorld inputPin).pin.m_nPin < GPIO_PINS
    ∧ TGPIOMode.GPIOModeAlternateFunction4 ≠ TGPIOMode.GPIOModeUnknown
    ∧ (SetMode bcm2835 TGPIOMode.GPIOModeAlternateFunction4 true (freshWorld inputPin)).isDone = true
    ∧ fselField bcm2835
        (SetMode bcm2835 TGPIOMode.GPIOModeAlternateFunction4 true (freshWorld inputPin)).world.regs 17
        = 3 :=
  ⟨by decide, by decide, by decide,
    SetMode_function_select bcm2835 (freshWorld inputPin) TGPIOMode.GPIOModeAlternateFunction4 true
      (by decide) (by decide) (by decide)⟩

/-! ## Pull-resistor sequence -/

/-- C2: for a valid pin index and a code of at most 2, `SetPullUpMode` returns
and emits exactly: write of the code to the pull-control register, delay 150,
write of `1 << (pin % 32)` to the pull-clock register of bank `pin / 32`,
delay 150, write of 0 to the pull-control register, write of 0 to that
pull-clock register. -/
theorem SetPullUpMode_sequence (M : RegMap) (w : World) (nMode : Nat)
    (hM : M.WellFormed) (hp : w.pin.m_nPin < GPIO_PINS) (hm : nMode ≤ 2) :
    (SetPullUpMode M nMode w).isDone = true
    ∧ (SetPullUpMode M nMode w).world.pin = w.pin
    ∧ (SetPullUpMode M nMode w).world.trace = w.trace ++
      [Effect.write M.ARM_GPIO_GPPUD nMode,
       Effect.delay 150,
       Effect.write (M.ARM_GPIO_GPPUDCLK0 + (w.pin.m_nPin / 32) * 4) (1 <<< (w.pin.m_nPin % 32)),
       Effect.delay 150,
       Effect.write M.ARM_GPIO_GPPUD 0,
       Effect.write (M.ARM_GPIO_GPPUDCLK0 + (w.pin.m_nPin / 32) * 4) 0] := by
  have hb := hM.bounds
  have h1 : u32 (M.ARM_GPIO_GPPUDCLK0 + (w.pin.m_nPin / 32) * 4)
      = M.ARM_GPIO_GPPUDCLK0 + (w.pin.m_nPin / 32) * 4 := by
    apply u32_of_lt
    simp only [GPIO_PINS] at hp
    omega
  have h2 : u32 (1 <<< (w.pin.m_nPin % 32)) = 1 <<< (w.pin.m_nPin % 32) :=
    u32_one_shiftLeft (Nat.mod_lt _ (by decide))
  have h3 : u32 nMode = nMode := u32_of_lt (by omega)
  have h4 : u32 0 = 0 := rfl
  simp [SetPullUpMode, Op.bind_apply, assert, getPin, write32, SimpleusDelay, hp, hm, h1, h2, h3,
    h4, Outcome.isDone, Outcome.world]

/-- Witness: the pull-up sequence (code 2) of pin 17 of the BCM2835. -/
theorem SetPullUpMode_sequence_witness :
    bcm2835.WellFormed ∧ (freshWorld inputPin).pin.m_nPin < GPIO_PINS ∧ 2 ≤ 2
    ∧ (SetPullUpMode bcm2835 2 (freshWorld inputPin)).world.trace =
      [Effect.write 0x20200094 2, Effect.delay 150, Effect.write 0x20200098 0x20000,
       Effect.delay 150, Effect.write 0x20200094 0, Effect.write 0x20200098 0] :=
  ⟨by decide, by decide, by decide,
    (SetPullUpMode_sequence bcm2835 (freshWorld inputPin) 2 (by decide) (by decide)
      (by decide)).2.2⟩

/-- C3: for every pin and every code greater than 2, `SetPullUpMode` is
rejected with the world exactly as it was: no register written, no delay. -/
theorem SetPullUpMode_rejects (M : RegMap) (w : World) (nMode : Nat) (hm : 2 < nMode) :
    SetPullUpMode M nMode w = Outcome.abort w := by
  have hm2 : ¬ nMode ≤ 2 := by omega
  by_cases hp : w.pin.m_nPin < GPIO_PINS <;>
    simp [SetPullUpMode, Op.bind_apply, assert, getPin, hp, hm2]

/-- Witness: code 3 on pin 17. -/
theorem SetPullUpMode_rejects_witness :
    2 < 3 ∧ SetPullUpMode bcm2835 3 (freshWorld inputPin) = Outcome.abort (freshWorld inputPin) :=
  ⟨by decide, SetPullUpMode_rejects bcm2835 (freshWorld inputPin) 3 (by decide)⟩

/-! ## Interrupt lifecycle -/

/-- A pin without handler and edge, in an input mode and with a dispatcher,
accepts `ConnectInterrupt`, which stores handler and context and registers the
pin with the dispatcher. -/
theorem ConnectInterrupt_done (w : World) (pHandler pParam : Nat)
    (hmode : isInputMode w.pin.m_Mode = true)
    (hi : w.pin.m_Interrupt = TGPIOInterrupt.GPIOInterruptUnknown)
    (hh : w.pin.m_pHandler = 0) (hmgr : w.pin.m_pManager ≠ 0) (hne : pHandler ≠ 0) :
    ConnectInterrupt pHandler pParam w = Outcome.done ()
      { w with
        pin := { w.pin with m_pHandler := pHandler, m_pParam := pParam }
        trace := w.trace ++ [Effect.connect w.pin.m_pManager w.pin.m_nPin] } := by
  simp [ConnectInterrupt, Op.bind_apply, assert, getPin, modifyPin, emit, hmode, hi, hh, hmgr, hne]

/-- A connected pin without edge accepts `EnableInterrupt` for each of the six
kinds; the call records the kind and sets the pin's bit in the enable word. -/
theorem EnableInterrupt_done (M : RegMap) (w : World) (Interrupt : TGPIOInterrupt)
    (hp : w.pin.m_nPin < GPIO_PINS) (hmode : isInputMode w.pin.m_Mode = true)
    (hmgr : w.pin.m_pManager ≠ 0) (hh : w.pin.m_pHandler ≠ 0)
    (hi : w.pin.m_Interrupt = TGPIOInterrupt.GPIOInterruptUnknown)
    (he : Interrupt ≠ TGPIOInterrupt.GPIOInterruptUnknown) :
    EnableInterrupt M Interrupt w = Outcome.done ()
      { pin := { w.pin with m_Interrupt := Interrupt }
        regs := Function.update w.regs
          (u32 (M.ARM_GPIO_GPREN0 + (w.pin.m_nPin / 32) * 4 + Interrupt.toNat * 12))
          (u32 (u32 (w.regs (u32 (M.ARM_GPIO_GPREN0 + (w.pin.m_nPin / 32) * 4
            + Interrupt.toNat * 12))) ||| u32 (1 <<< (w.pin.m_nPin % 32))))
        trace := w.trace ++
          [Effect.read (u32 (M.ARM_GPIO_GPREN0 + (w.pin.m_nPin / 32) * 4 + Interrupt.toNat * 12)),
           Effect.write (u32 (M.ARM_GPIO_GPREN0 + (w.pin.m_nPin / 32) * 4 + Interrupt.toNat * 12))
            (u32 (u32 (w.regs (u32 (M.ARM_GPIO_GPREN0 + (w.pin.m_nPin / 32) * 4
              + Interrupt.toNat * 12))) ||| u32 (1 <<< (w.pin.m_nPin % 32))))] } := by
  cases Interrupt <;>
    first
    | exact absurd rfl he
    | simp [EnableInterrupt, Op.bind_apply, assert, getPin, modifyPin, read32, write32, hmode, hi,
        hh, hmgr, hp, TGPIOInterrupt.toNat]

/-- A pin with an enabled edge, in an input mode, accepts `DisableInterrupt`,
which clears the pin's bit in the enable word of the recorded kind and resets
the kind. -/
theorem DisableInterrupt_done (M : RegMap) (w : World)
    (hp : w.pin.m_nPin < GPIO_PINS) (hmode : isInputMode w.pin.m_Mode = true)
    (hi : w.pin.m_Interrupt ≠ TGPIOInterrupt.GPIOInterruptUnknown) :
    DisableInterrupt M w = Outcome.done ()
      { pin := { w.pin with m_Interrupt := TGPIOInterrupt.GPIOInterruptUnknown }
        regs := Function.update w.regs
          (u32 (M.ARM_GPIO_GPREN0 + (w.pin.m_nPin / 32) * 4 + w.pin.m_Interrupt.toNat * 12))
          (u32 (u32 (w.regs (u32 (M.ARM_GPIO_GPREN0 + (w.pin.m_nPin / 32) * 4
            + w.pin.m_Interrupt.toNat * 12))) &&& not32 (u32 (1 <<< (w.pin.m_nPin % 32)))))
        trace := w.trace ++
          [Effect.read (u32 (M.ARM_GPIO_GPREN0 + (w.pin.m_nPin / 32) * 4
            + w.pin.m_Interrupt.toNat * 12)),
           Effect.write (u32 (M.ARM_GPIO_GPREN0 + (w.pin.m_nPin / 32) * 4
            + w.pin.m_Interrupt.toNat * 12))
            (u32 (u32 (w.regs (u32 (M.ARM_GPIO_GPREN0 + (w.pin.m_nPin / 32) * 4
              + w.pin.m_Interrupt.toNat * 12))) &&& not32 (u32 (1 <<< (w.pin.m_nPin % 32)))))] } := by
  have hlt : w.pin.m_Interrupt.toNat < 6 := by
    cases hk : w.pin.m_Interrupt <;> simp_all [TGPIOInterrupt.toNat]
  have e6 : TGPIOInterrupt.GPIOInterruptUnknown.toNat = 6 := rfl
  have e0 : TGPIOInterrupt.GPIOInterruptOnRisingEdge.toNat = 0 := rfl
  simp [DisableInterrupt, Op.bind_apply, assert, getPin, modifyPin, read32, write32, hmode, hp,
    e6, e0, hlt]

/-- A connected pin without edge, in an input mode and with a dispatcher,
accepts `DisconnectInterrupt`, which clears the handler and unregisters the
pin. -/
theorem DisconnectInterrupt_done (w : World)
    (hmode : isInputMode w.pin.m_Mode = true)
    (hi : w.pin.m_Interrupt = TGPIOInterrupt.GPIOInterruptUnknown)
    (hh : w.pin.m_pHandler ≠ 0) (hmgr : w.pin.m_pManager ≠ 0) :
    DisconnectInterrupt w = Outcome.done ()
      { w with
        pin := { w.pin with m_pHandler := 0 }
        trace := w.trace ++ [Effect.disconnect w.pin.m_pManager w.pin.m_nPin] } := by
  simp [DisconnectInterrupt, Op.bind_apply, assert, getPin, modifyPin, emit, hmode, hi, hh, hmgr]

/-- C5: on a pin in the enabled state (input mode, handler `h` and context `c`
stored, an edge kind enabled) `InterruptHandler` returns, having called
exactly `h` once with exactly `c`; pin object and registers are unchanged. -/
theorem InterruptHandler_calls_handler (w : World) (h c : Nat)
    (hmode : isInputMode w.pin.m_Mode = true) (hh : w.pin.m_pHandler = h) (hne : h ≠ 0)
    (hc : w.pin.m_pParam = c)
    (hi : w.pin.m_Interrupt ≠ TGPIOInterrupt.GPIOInterruptUnknown) :
    InterruptHandler w = Outcome.done ()
      { w with trace := w.trace ++ [Effect.call h c] } := by
  have hlt : w.pin.m_Interrupt.toNat < 6 := by
    cases hk : w.pin.m_Interrupt <;> simp_all [TGPIOInterrupt.toNat]
  subst hh hc
  have e6 : TGPIOInterrupt.GPIOInterruptUnknown.toNat = 6 := rfl
  simp [InterruptHandler, Op.bind_apply, assert, getPin, emit, hmode, hne, hlt, e6]

/-- Witness: pin 17 with handler 64 and context 5, rising edge enabled. -/
theorem InterruptHandler_calls_handler_witness :
    isInputMode (freshWorld enabledPin).pin.m_Mode = true
    ∧ (freshWorld enabledPin).pin.m_pHandler = 64 ∧ 64 ≠ 0
    ∧ (freshWorld enabledPin).pin.m_pParam = 5
    ∧ (freshWorld enabledPin).pin.m_Interrupt ≠ TGPIOInterrupt.GPIOInterruptUnknown
    ∧ InterruptHandler (freshWorld enabledPin) = Outcome.done ()
        { freshWorld enabledPin with trace := (freshWorld enabledPin).trace ++ [Effect.call 64 5] } :=
  ⟨by decide, by decide, by decide, by decide, by decide,
    InterruptHandler_calls_handler (freshWorld enabledPin) 64 5 (by decide) (by decide)
      (by decide) (by decide) (by decide)⟩

/-- C4 as the code has it: on a pin with a valid index and a dispatcher, in an
input mode, without handler and edge, the cycle connect, enable, interrupt,
disable, disconnect with a non-null handler `h`, a context `c` and one of the
six edge kinds succeeds at every step, and leaves every member as before
except the stored context, which stays `c`. -/
theorem interruptCycle_restores (M : RegMap) (w : World) (h c : Nat) (e : TGPIOInterrupt)
    (hp : w.pin.m_nPin < GPIO_PINS) (hmode : isInputMode w.pin.m_Mode = true)
    (hh : w.pin.m_pHandler = 0)
    (hi : w.pin.m_Interrupt = TGPIOInterrupt.GPIOInterruptUnknown)
    (hmgr : w.pin.m_pManager ≠ 0) (hne : h ≠ 0)
    (he : e ≠ TGPIOInterrupt.GPIOInterruptUnknown) :
    (interruptCycle M h c e w).isDone = true
    ∧ (interruptCycle M h c e w).world.pin = { w.pin with m_pParam := c }
    ∧ Effect.call h c ∈ (interruptCycle M h c e w).world.trace := by
  cases e <;>
    first
    | exact absurd rfl he
    | simp [interruptCycle, ConnectInterrupt, EnableInterrupt, InterruptHandler, DisableInterrupt,
        DisconnectInterrupt, Op.bind_apply, assert, getPin, modifyPin, emit, read32, write32,
        hmode, hi, hh, hmgr, hne, hp, TGPIOInterrupt.toNat, Outcome.isDone, Outcome.world]

/-- Witness: the lifecycle on pin 17 with handler 64, context 5 and
the rising edge. -/
theorem interruptCycle_restores_witness :
    (freshWorld inputPin).pin.m_nPin < GPIO_PINS
    ∧ isInputMode (freshWorld inputPin).pin.m_Mode = true
    ∧ (freshWorld inputPin).pin.m_pHandler = 0
    ∧ (freshWorld inputPin).pin.m_Interrupt = TGPIOInterrupt.GPIOInterruptUnknown
    ∧ (freshWorld inputPin).pin.m_pManager ≠ 0 ∧ 64 ≠ 0
    ∧ TGPIOInterrupt.GPIOInterruptOnRisingEdge ≠ TGPIOInterrupt.GPIOInterruptUnknown
    ∧ (interruptCycle bcm2835 64 5 TGPIOInterrupt.GPIOInterruptOnRisingEdge
        (freshWorld inputPin)).world.pin = { inputPin with m_pParam := 5 } :=
  ⟨by decide, by decide, by decide, by decide, by decide, by decide, by decide,
    (interruptCycle_restores bcm2835 (freshWorld inputPin) 64 5
      TGPIOInterrupt.GPIOInterruptOnRisingEdge (by decide) (by decide) (by decide) (by decide)
      (by decide) (by decide) (by decide)).2.1⟩

/-- Counterexample to the lifecycle property as first stated (for every pin,
with every member restored).  On pin 17 constructed without a dispatcher the
first step, `ConnectInterrupt`, is rejected; and on pin 17 with a dispatcher
and stored context 0, the cycle with context 5 succeeds but ends with stored
context 5, so the pin object differs from the one before the cycle. -/
theorem interruptCycle_counterexample :
    (ConnectInterrupt 64 5 (freshWorld loosePin)).isDone = false
    ∧ (interruptCycle bcm2835 64 5 TGPIOInterrupt.GPIOInterruptOnRisingEdge
        (freshWorld inputPin)).isDone = true
    ∧ (interruptCycle bcm2835 64 5 TGPIOInterrupt.GPIOInterruptOnRisingEdge
        (freshWorld inputPin)).world.pin ≠ (freshWorld inputPin).pin
    ∧ (interruptCycle bcm2835 64 5 TGPIOInterrupt.GPIOInterruptOnRisingEdge
        (freshWorld inputPin)).world.pin.m_pParam = 5
    ∧ (freshWorld inputPin).pin.m_pParam = 0 := by
  decide

/-- C6: `EnableInterrupt` is rejected for every edge kind on a pin without a
handler, and `InterruptHandler` is rejected on a pin that has a handler but no
enabled edge; both leave the world as it was, so no register is accessed and
the callback is not called. -/
theorem interrupt_order_rejected (M : RegMap) (wd wc : World) (e : TGPIOInterrupt)
    (hd : wd.pin.m_pHandler = 0)
    (_hc : wc.pin.m_pHandler ≠ 0)
    (hi : wc.pin.m_Interrupt = TGPIOInterrupt.GPIOInterruptUnknown) :
    EnableInterrupt M e wd = Outcome.abort wd
    ∧ InterruptHandler wc = Outcome.abort wc := by
  constructor
  · by_cases hmode : isInputMode wd.pin.m_Mode = true <;>
      by_cases hmgr : wd.pin.m_pManager = 0 <;>
        simp [EnableInterrupt, Op.bind_apply, assert, getPin, hmode, hmgr, hd]
  · have e6 : TGPIOInterrupt.GPIOInterruptUnknown.toNat = 6 := rfl
    by_cases hmode : isInputMode wc.pin.m_Mode = true <;>
      simp [InterruptHandler, Op.bind_apply, assert, getPin, hmode, hi, e6]

/-- Witness: pin 17 before `ConnectInterrupt`, and pin 17 connected with
handler 64 but no edge enabled. -/
theorem interrupt_order_rejected_witness :
    (freshWorld inputPin).pin.m_pHandler = 0
    ∧ (freshWorld connectedPin).pin.m_pHandler ≠ 0
    ∧ (freshWorld connectedPin).pin.m_Interrupt = TGPIOInterrupt.GPIOInterruptUnknown
    ∧ EnableInterrupt bcm2835 TGPIOInterrupt.GPIOInterruptOnRisingEdge (freshWorld inputPin)
        = Outcome.abort (freshWorld inputPin)
    ∧ InterruptHandler (freshWorld connectedPin) = Outcome.abort (freshWorld connectedPin) :=
  ⟨by decide, by decide, by decide,
    interrupt_order_rejected bcm2835 (freshWorld inputPin) (freshWorld connectedPin)
      TGPIOInterrupt.GPIOInterruptOnRisingEdge (by decide) (by decide) (by decide)⟩

/-! ## Level input and output -/

/-- C7: `Read` is rejected when the mode is not one of the three input modes,
and `Write` is rejected when the mode is one of the alternate functions 0 to
5; both leave the world as it was, so no register is read or written. -/
theorem level_mode_rejected (M : RegMap) (wr ww : World) (nValue : Nat)
    (hr : wr.pin.m_Mode ≠ TGPIOMode.GPIOModeInput
      ∧ wr.pin.m_Mode ≠ TGPIOMode.GPIOModeInputPullUp
      ∧ wr.pin.m_Mode ≠ TGPIOMode.GPIOModeInputPullDown)
    (hw : TGPIOMode.GPIOModeAlternateFunction0.toNat ≤ ww.pin.m_Mode.toNat
      ∧ ww.pin.m_Mode.toNat ≤ TGPIOMode.GPIOModeAlternateFunction5.toNat) :
    Read M wr = Outcome.abort wr ∧ Write M nValue ww = Outcome.abort ww := by
  constructor
  · simp [Read, Op.bind_apply, assert, getPin, isInputMode, hr]
  · have h4 : TGPIOMode.GPIOModeAlternateFunction0.toNat = 4 := rfl
    have hlt : ¬ ww.pin.m_Mode.toNat < 4 := by
      rw [h4] at hw
      omega
    simp [Write, Op.bind_apply, assert, getPin, h4, hlt]

/-- Witness: `Read` on pin 17 as an output and `Write` of a high level on
pin 17 as alternate function 0. -/
theorem level_mode_rejected_witness :
    ((freshWorld outputPin).pin.m_Mode ≠ TGPIOMode.GPIOModeInput
      ∧ (freshWorld outputPin).pin.m_Mode ≠ TGPIOMode.GPIOModeInputPullUp
      ∧ (freshWorld outputPin).pin.m_Mode ≠ TGPIOMode.GPIOModeInputPullDown)
    ∧ (TGPIOMode.GPIOModeAlternateFunction0.toNat ≤ (freshWorld altPin).pin.m_Mode.toNat
      ∧ (freshWorld altPin).pin.m_Mode.toNat ≤ TGPIOMode.GPIOModeAlternateFunction5.toNat)
    ∧ Read bcm2835 (freshWorld outputPin) = Outcome.abort (freshWorld outputPin)
    ∧ Write bcm2835 HIGH (freshWorld altPin) = Outcome.abort (freshWorld altPin) :=
  ⟨by decide, by decide,
    level_mode_rejected bcm2835 (freshWorld outputPin) (freshWorld altPin) HIGH (by decide)
      (by decide)⟩

/-- C8: for a valid pin index, a mode among input, output, input with pull-up
and input with pull-down, and a level `LOW` or `HIGH`, `Write` returns with
the level cached in `m_nValue`, every other member unchanged, and exactly one
register write between two barriers: the word `2 ^ (pin % 32) % 2 ^ 32` to
the set register of bank `pin / 32` for `HIGH`, to the clear register of that
bank for `LOW`. -/
theorem Write_level (M : RegMap) (w : World) (nValue : Nat)
    (hM : M.WellFormed) (hp : w.pin.m_nPin < GPIO_PINS)
    (hmode : w.pin.m_Mode = TGPIOMode.GPIOModeInput ∨ w.pin.m_Mode = TGPIOMode.GPIOModeOutput
      ∨ w.pin.m_Mode = TGPIOMode.GPIOModeInputPullUp
      ∨ w.pin.m_Mode = TGPIOMode.GPIOModeInputPullDown)
    (hv : nValue = LOW ∨ nValue = HIGH) :
    Write M nValue w = Outcome.done ()
      { pin := { w.pin with m_nValue := nValue }
        regs := Function.update w.regs
          ((if nValue = HIGH then M.ARM_GPIO_GPSET0 else M.ARM_GPIO_GPCLR0)
            + (w.pin.m_nPin / 32) * 4)
          (2 ^ (w.pin.m_nPin % 32) % 2 ^ 32)
        trace := w.trace ++
          [Effect.barrier,
           Effect.write
            ((if nValue = HIGH then M.ARM_GPIO_GPSET0 else M.ARM_GPIO_GPCLR0)
              + (w.pin.m_nPin / 32) * 4)
            (2 ^ (w.pin.m_nPin % 32) % 2 ^ 32),
           Effect.barrier] } := by
  have hb := hM.bounds
  have hlt : w.pin.m_Mode.toNat < TGPIOMode.GPIOModeAlternateFunction0.toNat := by
    rcases hmode with h | h | h | h <;> rw [h] <;> decide
  have hs : u32 (M.ARM_GPIO_GPSET0 + (w.pin.m_nPin / 32) * 4)
      = M.ARM_GPIO_GPSET0 + (w.pin.m_nPin / 32) * 4 := by
    apply u32_of_lt
    simp only [GPIO_PINS] at hp
    omega
  have hc : u32 (M.ARM_GPIO_GPCLR0 + (w.pin.m_nPin / 32) * 4)
      = M.ARM_GPIO_GPCLR0 + (w.pin.m_nPin / 32) * 4 := by
    apply u32_of_lt
    simp only [GPIO_PINS] at hp
    omega
  have hbit := u32_one_shiftLeft_pow (w.pin.m_nPin % 32)
  rcases hv with h | h <;> subst h <;>
    simp [Write, Op.bind_apply, assert, getPin, modifyPin, DataMemBarrier, write32, hlt, hp, hs, hc,
      hbit, LOW, HIGH]

/-- Witness: a high level written on pin 17 as an output. -/
theorem Write_level_witness :
    bcm2835.WellFormed ∧ (freshWorld outputPin).pin.m_nPin < GPIO_PINS
    ∧ ((freshWorld outputPin).pin.m_Mode = TGPIOMode.GPIOModeInput
      ∨ (freshWorld outputPin).pin.m_Mode = TGPIOMode.GPIOModeOutput
      ∨ (freshWorld outputPin).pin.m_Mode = TGPIOMode.GPIOModeInputPullUp
      ∨ (freshWorld outputPin).pin.m_Mode = TGPIOMode.GPIOModeInputPullDown)
    ∧ (HIGH = LOW ∨ HIGH = HIGH)
    ∧ Write bcm2835 HIGH (freshWorld outputPin) = Outcome.done ()
      { pin := { outputPin with m_nValue := 1 }
        regs := Function.update (fun _ => 0) 0x2020001C 0x20000
        trace := [Effect.barrier, Effect.write 0x2020001C 0x20000, Effect.barrier] } :=
  ⟨by decide, by decide, by decide, by decide,
    Write_level bcm2835 (freshWorld outputPin) HIGH (by decide) (by decide) (by decide)
      (by decide)⟩

/-- C9: for a valid pin index in one of the three input modes and every
register content, `Read` returns `HIGH` if bit `pin % 32` of the level
register of bank `pin / 32` is set and `LOW` otherwise; the pin object and the
register file are unchanged (the effects are a barrier, the one register read
and a barrier). -/
theorem Read_level (M : RegMap) (w : World)
    (hM : M.WellFormed) (hp : w.pin.m_nPin < GPIO_PINS)
    (hmode : w.pin.m_Mode = TGPIOMode.GPIOModeInput
      ∨ w.pin.m_Mode = TGPIOMode.GPIOModeInputPullUp
      ∨ w.pin.m_Mode = TGPIOMode.GPIOModeInputPullDown) :
    Read M w = Outcome.done
      (if (w.regs (M.ARM_GPIO_GPLEV0 + (w.pin.m_nPin / 32) * 4)).testBit (w.pin.m_nPin % 32)
        then HIGH else LOW)
      { w with
        trace := w.trace ++
          [Effect.barrier, Effect.read (M.ARM_GPIO_GPLEV0 + (w.pin.m_nPin / 32) * 4),
           Effect.barrier] } := by
  have hb := hM.bounds
  have hin : isInputMode w.pin.m_Mode = true := by
    rcases hmode with h | h | h <;> rw [h] <;> decide
  have hl : u32 (M.ARM_GPIO_GPLEV0 + (w.pin.m_nPin / 32) * 4)
      = M.ARM_GPIO_GPLEV0 + (w.pin.m_nPin / 32) * 4 := by
    apply u32_of_lt
    simp only [GPIO_PINS] at hp
    omega
  have hlt : w.pin.m_nPin % 32 < 32 := Nat.mod_lt _ (by decide)
  have hbit := u32_one_shiftLeft hlt
  have htest := and_one_shiftLeft_ne_zero
    (u32 (w.regs (M.ARM_GPIO_GPLEV0 + (w.pin.m_nPin / 32) * 4))) (w.pin.m_nPin % 32)
  rw [testBit_u32 _ hlt] at htest
  by_cases hset :
      (w.regs (M.ARM_GPIO_GPLEV0 + (w.pin.m_nPin / 32) * 4)).testBit (w.pin.m_nPin % 32) = true
  · have hz := htest.2 hset
    simp [Read, Op.bind_apply, Op.pure_apply, assert, getPin, DataMemBarrier, read32, hin, hp, hl,
      hbit, hset, hz]
  · have hz : u32 (w.regs (M.ARM_GPIO_GPLEV0 + (w.pin.m_nPin / 32) * 4))
        &&& 1 <<< (w.pin.m_nPin % 32) = 0 := by
      by_contra hne
      exact hset (htest.1 hne)
    simp [Read, Op.bind_apply, Op.pure_apply, assert, getPin, DataMemBarrier, read32, hin, hp, hl,
      hbit, hset, hz]

/-- Witness: pin 17 as an input over an all-zero register file reads
`LOW`. -/
theorem Read_level_witness :
    bcm2835.WellFormed ∧ (freshWorld inputPin).pin.m_nPin < GPIO_PINS
    ∧ ((freshWorld inputPin).pin.m_Mode = TGPIOMode.GPIOModeInput
      ∨ (freshWorld inputPin).pin.m_Mode = TGPIOMode.GPIOModeInputPullUp
      ∨ (freshWorld inputPin).pin.m_Mode = TGPIOMode.GPIOModeInputPullDown)
    ∧ Read bcm2835 (freshWorld inputPin) = Outcome.done LOW
      { freshWorld inputPin with
        trace := [Effect.barrier, Effect.read 0x20200034, Effect.barrier] } :=
  ⟨by decide, by decide, by decide,
    Read_level bcm2835 (freshWorld inputPin) (by decide) (by decide) (by decide)⟩

/-! ## Barriers -/

/-- The operations `Write`, `Read` and `Invert` bracket their register access
with barriers, in every world and for every argument. -/
theorem level_access_bracketed (M : RegMap) (w : World) (nValue : Nat) :
    bracketed (emitted (Write M nValue) w) = true
    ∧ bracketed (emitted (Read M) w) = true
    ∧ bracketed (emitted (Invert M) w) = true := by
  have hw : ∀ v : Nat, bracketed (emitted (Write M v) w) = true := by
    intro v
    by_cases h1 : w.pin.m_Mode.toNat < TGPIOMode.GPIOModeAlternateFunction0.toNat <;>
      by_cases h2 : v = LOW ∨ v = HIGH <;>
        by_cases h3 : w.pin.m_nPin < GPIO_PINS <;>
          simp [emitted, bracketed, barrierBeforeAccess, Effect.isAccess, Write, Op.bind_apply,
            assert, getPin, modifyPin, DataMemBarrier, write32, Outcome.world, h1, h2, h3]
  refine ⟨hw nValue, ?_, ?_⟩
  · by_cases h1 : isInputMode w.pin.m_Mode = true <;>
      by_cases h3 : w.pin.m_nPin < GPIO_PINS <;>
        simp [emitted, bracketed, barrierBeforeAccess, Effect.isAccess, Read, Op.bind_apply,
          Op.pure_apply, assert, getPin, DataMemBarrier, read32, Outcome.world, h1, h3]
  · by_cases h1 : w.pin.m_Mode = TGPIOMode.GPIOModeOutput
    · have := hw (w.pin.m_nValue ^^^ 1)
      simpa [emitted, Invert, Op.bind_apply, assert, getPin, h1] using this
    · simp [emitted, bracketed, barrierBeforeAccess, Invert, Op.bind_apply, assert, getPin,
        Outcome.world, h1]

set_option maxHeartbeats 2000000 in
/-- The operation `SetMode` brackets its register accesses with barriers, on
every path: for every valid pin index, every mode and both values of
`bInitPin`. -/
theorem SetMode_access_bracketed (M : RegMap) (w : World) (Mode : TGPIOMode) (bInitPin : Bool)
    (hp : w.pin.m_nPin < GPIO_PINS) :
    bracketed (emitted (SetMode M Mode bInitPin) w) = true := by
  cases Mode <;> cases bInitPin <;>
    simp [emitted, bracketed, barrierBeforeAccess, Effect.isAccess, SetMode, SetPullUpMode,
      SetAlternateFunction, Write, Op.bind_apply, Op.pure_apply, assert, getPin, modifyPin,
      DataMemBarrier, read32, write32, SimpleusDelay, Outcome.world, TGPIOMode.toNat, hp, LOW, HIGH]

/-- C10 fails on the code: `EnableInterrupt` on pin 17 (connected, no edge)
and `DisableInterrupt` on pin 17 (rising edge enabled) both read and write
the enable register 0x2020004C and emit no barrier at all, so their register
accesses are not bracketed. -/
theorem interrupt_enable_without_barrier :
    (EnableInterrupt bcm2835 TGPIOInterrupt.GPIOInterruptOnRisingEdge
        (freshWorld connectedPin)).isDone = true
    ∧ emitted (EnableInterrupt bcm2835 TGPIOInterrupt.GPIOInterruptOnRisingEdge)
        (freshWorld connectedPin)
      = [Effect.read 0x2020004C, Effect.write 0x2020004C 0x20000]
    ∧ bracketed (emitted (EnableInterrupt bcm2835 TGPIOInterrupt.GPIOInterruptOnRisingEdge)
        (freshWorld connectedPin)) = false
    ∧ (DisableInterrupt bcm2835 (freshWorld enabledPin)).isDone = true
    ∧ emitted (DisableInterrupt bcm2835) (freshWorld enabledPin)
      = [Effect.read 0x2020004C, Effect.write 0x2020004C 0]
    ∧ bracketed (emitted (DisableInterrupt bcm2835) (freshWorld enabledPin)) = false := by
  decide

/-! ## Rejections and register accesses -/

set_option maxHeartbeats 2000000 in
/-- `SetMode` either returns, or is rejected before any register access. -/
theorem SetMode_done_or_untouched (M : RegMap) (w : World) (Mode : TGPIOMode) (bInitPin : Bool) :
    (SetMode M Mode bInitPin w).isDone = true
    ∨ (noAccess (emitted (SetMode M Mode bInitPin) w) = true
        ∧ (SetMode M Mode bInitPin w).world.regs = w.regs) := by
  by_cases hp : w.pin.m_nPin < GPIO_PINS <;> cases Mode <;> cases bInitPin <;>
    simp [emitted, noAccess, Effect.isAccess, SetMode, SetPullUpMode,
      SetAlternateFunction, Write, Op.bind_apply, Op.pure_apply, assert, getPin, modifyPin,
      DataMemBarrier, read32, write32, SimpleusDelay, Outcome.world, Outcome.isDone,
      TGPIOMode.toNat, hp, LOW, HIGH]

/-- `Write` either returns, or is rejected before any register access. -/
theorem Write_done_or_untouched (M : RegMap) (w : World) (v : Nat) :
    (Write M v w).isDone = true
    ∨ (noAccess (emitted (Write M v) w) = true ∧ (Write M v w).world.regs = w.regs) := by
  by_cases h1 : w.pin.m_Mode.toNat < TGPIOMode.GPIOModeAlternateFunction0.toNat <;>
    by_cases h2 : v = LOW ∨ v = HIGH <;>
      by_cases h3 : w.pin.m_nPin < GPIO_PINS <;>
        simp [emitted, noAccess, Effect.isAccess, Write, Op.bind_apply, assert, getPin,
          modifyPin, DataMemBarrier, write32, Outcome.world, Outcome.isDone, h1, h2, h3]

/-- The constructor asserts the pin index and then runs `SetMode` with pin
initialisation on the freshly initialised members. -/
theorem CGPIOPin_eq (M : RegMap) (nPin : Nat) (Mode : TGPIOMode)
    (pManager nValue0 pParam0 : Nat) (regs : Nat → Nat) :
    CGPIOPin.CGPIOPin M nPin Mode pManager nValue0 pParam0 regs =
      if nPin < GPIO_PINS then
        SetMode M Mode true
          { pin :=
              { m_nPin := nPin
                m_Mode := TGPIOMode.GPIOModeUnknown
                m_nValue := nValue0
                m_pManager := pManager
                m_pHandler := 0
                m_pParam := pParam0
                m_Interrupt := TGPIOInterrupt.GPIOInterruptUnknown }
            regs := regs
            trace := [] }
      else
        Outcome.abort
          { pin :=
              { m_nPin := nPin
                m_Mode := TGPIOMode.GPIOModeUnknown
                m_nValue := nValue0
                m_pManager := pManager
                m_pHandler := 0
                m_pParam := pParam0
                m_Interrupt := TGPIOInterrupt.GPIOInterruptUnknown }
            regs := regs
            trace := [] } := by
  by_cases hp : nPin < GPIO_PINS <;>
    simp [CGPIOPin.CGPIOPin, Op.bind_apply, assert, getPin, hp]

/-- C11: every public operation (the constructor, `SetMode`, `Write`, `Read`,
`Invert`, `ConnectInterrupt`, `DisconnectInterrupt`, `EnableInterrupt`,
`DisableInterrupt`, `InterruptHandler`), in every world and for every
argument, either runs to completion or is rejected with no register read or
written: the effects it emitted hold no register access and the register file
is as before. -/
theorem rejected_before_register_access (M : RegMap) :
    (∀ (w : World) (op : PinOp),
      (op.run M w).isDone = true
      ∨ (noAccess (emitted (op.run M) w) = true ∧ (op.run M w).world.regs = w.regs))
    ∧ (∀ (nPin : Nat) (Mode : TGPIOMode) (pManager nValue0 pParam0 : Nat) (regs : Nat → Nat),
      (CGPIOPin.CGPIOPin M nPin Mode pManager nValue0 pParam0 regs).isDone = true
      ∨ (noAccess (CGPIOPin.CGPIOPin M nPin Mode pManager nValue0 pParam0 regs).world.trace = true
          ∧ (CGPIOPin.CGPIOPin M nPin Mode pManager nValue0 pParam0 regs).world.regs = regs)) := by
  constructor
  · intro w op
    cases op with
    | SetMode Mode bInitPin => exact SetMode_done_or_untouched M w Mode bInitPin
    | Write nValue => exact Write_done_or_untouched M w nValue
    | Read =>
      by_cases h1 : isInputMode w.pin.m_Mode = true <;>
        by_cases h3 : w.pin.m_nPin < GPIO_PINS <;>
          simp [PinOp.run, emitted, noAccess, Effect.isAccess, Read, Op.bind_apply, Op.pure_apply,
            assert, getPin, DataMemBarrier, read32, Outcome.world, Outcome.isDone, h1, h3]
    | Invert =>
      by_cases h1 : w.pin.m_Mode = TGPIOMode.GPIOModeOutput
      · have := Write_done_or_untouched M w (w.pin.m_nValue ^^^ 1)
        simpa [PinOp.run, emitted, Invert, Op.bind_apply, assert, getPin, h1] using this
      · simp [PinOp.run, emitted, noAccess, Invert, Op.bind_apply, assert, getPin, Outcome.world,
          Outcome.isDone, h1]
    | ConnectInterrupt pHandler pParam =>
      simp only [PinOp.run, emitted, ConnectInterrupt, Op.bind_apply, assert, getPin, modifyPin,
        emit]
      split_ifs <;> simp [noAccess, Outcome.isDone, Outcome.world]
    | DisconnectInterrupt =>
      simp only [PinOp.run, emitted, DisconnectInterrupt, Op.bind_apply, assert, getPin,
        modifyPin, emit]
      split_ifs <;> simp [noAccess, Outcome.isDone, Outcome.world]
    | EnableInterrupt Interrupt =>
      simp only [PinOp.run, emitted, EnableInterrupt, Op.bind_apply, assert, getPin, modifyPin,
        read32, write32]
      split_ifs <;> simp [noAccess, Outcome.isDone, Outcome.world]
    | DisableInterrupt =>
      simp only [PinOp.run, emitted, DisableInterrupt, Op.bind_apply, assert, getPin, modifyPin,
        read32, write32]
      split_ifs <;> simp [noAccess, Outcome.isDone, Outcome.world]
    | InterruptHandler =>
      simp only [PinOp.run, emitted, InterruptHandler, Op.bind_apply, assert, getPin, emit]
      split_ifs <;> simp [noAccess, Outcome.isDone, Outcome.world]
  · intro nPin Mode pManager nValue0 pParam0 regs
    rw [CGPIOPin_eq]
    by_cases hp : nPin < GPIO_PINS
    · rw [if_pos hp]
      have := SetMode_done_or_untouched M
        { pin :=
            { m_nPin := nPin
              m_Mode := TGPIOMode.GPIOModeUnknown
              m_nValue := nValue0
              m_pManager := pManager
              m_pHandler := 0
              m_pParam := pParam0
              m_Interrupt := TGPIOInterrupt.GPIOInterruptUnknown }
          regs := regs
          trace := [] } Mode true
      simpa [emitted] using this
    · rw [if_neg hp]
      simp [noAccess, Outcome.world]

/-! ## Reachable states -/

set_option maxHeartbeats 2000000 in
/-- `SetMode` changes no member but `m_Mode` and `m_nValue`, whether it returns
or is rejected, and when it returns the mode is its argument. -/
theorem SetMode_pin (M : RegMap) (w : World) (Mode : TGPIOMode) (bInitPin : Bool) :
    (SetMode M Mode bInitPin w).world.pin.m_nPin = w.pin.m_nPin
    ∧ (SetMode M Mode bInitPin w).world.pin.m_pManager = w.pin.m_pManager
    ∧ (SetMode M Mode bInitPin w).world.pin.m_pHandler = w.pin.m_pHandler
    ∧ (SetMode M Mode bInitPin w).world.pin.m_pParam = w.pin.m_pParam
    ∧ (SetMode M Mode bInitPin w).world.pin.m_Interrupt = w.pin.m_Interrupt
    ∧ ((SetMode M Mode bInitPin w).isDone = true →
        (SetMode M Mode bInitPin w).world.pin.m_Mode = Mode) := by
  by_cases hp : w.pin.m_nPin < GPIO_PINS <;> cases Mode <;> cases bInitPin <;>
    simp [SetMode, SetPullUpMode, SetAlternateFunction, Write, Op.bind_apply, Op.pure_apply,
      assert, getPin, modifyPin, DataMemBarrier, read32, write32, SimpleusDelay, Outcome.world,
      Outcome.isDone, TGPIOMode.toNat, hp, LOW, HIGH]

/-- `Write` changes no member but `m_nValue`. -/
theorem Write_pin (M : RegMap) (w : World) (v : Nat) :
    (Write M v w).world.pin.m_Mode = w.pin.m_Mode
    ∧ (Write M v w).world.pin.m_pHandler = w.pin.m_pHandler
    ∧ (Write M v w).world.pin.m_Interrupt = w.pin.m_Interrupt := by
  by_cases h1 : w.pin.m_Mode.toNat < TGPIOMode.GPIOModeAlternateFunction0.toNat <;>
    by_cases h2 : v = LOW ∨ v = HIGH <;>
      by_cases h3 : w.pin.m_nPin < GPIO_PINS <;>
        simp [Write, Op.bind_apply, assert, getPin, modifyPin, DataMemBarrier, write32,
          Outcome.world, h1, h2, h3]

/-- A pin that was just constructed has no handler and no edge kind enabled. -/
theorem CGPIOPin_pin (M : RegMap) (nPin : Nat) (Mode : TGPIOMode)
    (pManager nValue0 pParam0 : Nat) (regs : Nat → Nat) :
    (CGPIOPin.CGPIOPin M nPin Mode pManager nValue0 pParam0 regs).world.pin.m_pHandler = 0
    ∧ (CGPIOPin.CGPIOPin M nPin Mode pManager nValue0 pParam0 regs).world.pin.m_Interrupt
        = TGPIOInterrupt.GPIOInterruptUnknown := by
  rw [CGPIOPin_eq]
  by_cases hp : nPin < GPIO_PINS
  · rw [if_pos hp]
    have hs := SetMode_pin M
      { pin :=
          { m_nPin := nPin
            m_Mode := TGPIOMode.GPIOModeUnknown
            m_nValue := nValue0
            m_pManager := pManager
            m_pHandler := 0
            m_pParam := pParam0
            m_Interrupt := TGPIOInterrupt.GPIOInterruptUnknown }
        regs := regs
        trace := [] } Mode true
    exact ⟨hs.2.2.1, hs.2.2.2.2.1⟩
  · rw [if_neg hp]
    exact ⟨rfl, rfl⟩

/-- What a successful public operation does to the mode, the handler and the
edge kind of the pin, and what its success says about them beforehand. -/
theorem run_pin (M : RegMap) (w : World) (op : PinOp)
    (h : (op.run M w).isDone = true) :
    match op with
    | .SetMode Mode _ =>
        (op.run M w).world.pin.m_Mode = Mode
          ∧ (op.run M w).world.pin.m_pHandler = w.pin.m_pHandler
          ∧ (op.run M w).world.pin.m_Interrupt = w.pin.m_Interrupt
    | .ConnectInterrupt _ _ =>
        (op.run M w).world.pin.m_Mode = w.pin.m_Mode
          ∧ (op.run M w).world.pin.m_Interrupt = w.pin.m_Interrupt
          ∧ w.pin.m_Interrupt = TGPIOInterrupt.GPIOInterruptUnknown
    | .DisconnectInterrupt =>
        (op.run M w).world.pin.m_Mode = w.pin.m_Mode
          ∧ (op.run M w).world.pin.m_Interrupt = w.pin.m_Interrupt
          ∧ w.pin.m_Interrupt = TGPIOInterrupt.GPIOInterruptUnknown
    | .EnableInterrupt _ =>
        (op.run M w).world.pin.m_Mode = w.pin.m_Mode
          ∧ (op.run M w).world.pin.m_pHandler = w.pin.m_pHandler
          ∧ w.pin.m_pHandler ≠ 0 ∧ isInputMode w.pin.m_Mode = true
    | .DisableInterrupt =>
        (op.run M w).world.pin.m_Mode = w.pin.m_Mode
          ∧ (op.run M w).world.pin.m_pHandler = w.pin.m_pHandler
          ∧ (op.run M w).world.pin.m_Interrupt = TGPIOInterrupt.GPIOInterruptUnknown
    | _ =>
        (op.run M w).world.pin.m_Mode = w.pin.m_Mode
          ∧ (op.run M w).world.pin.m_pHandler = w.pin.m_pHandler
          ∧ (op.run M w).world.pin.m_Interrupt = w.pin.m_Interrupt := by
  cases op with
  | SetMode Mode bInitPin =>
    have hs := SetMode_pin M w Mode bInitPin
    exact ⟨hs.2.2.2.2.2 h, hs.2.2.1, hs.2.2.2.2.1⟩
  | Write nValue => exact Write_pin M w nValue
  | Read =>
    by_cases h1 : isInputMode w.pin.m_Mode = true <;>
      by_cases h3 : w.pin.m_nPin < GPIO_PINS <;>
        simp [PinOp.run, Read, Op.bind_apply, Op.pure_apply, assert, getPin, DataMemBarrier,
          read32, Outcome.world, h1, h3]
  | Invert =>
    by_cases h1 : w.pin.m_Mode = TGPIOMode.GPIOModeOutput
    · have := Write_pin M w (w.pin.m_nValue ^^^ 1)
      simpa [PinOp.run, Invert, Op.bind_apply, assert, getPin, h1] using this
    · simp [PinOp.run, Invert, Op.bind_apply, assert, getPin, Outcome.world, h1]
  | ConnectInterrupt pHandler pParam =>
    revert h
    simp only [PinOp.run, ConnectInterrupt, Op.bind_apply, assert, getPin, modifyPin, emit]
    split_ifs <;> simp_all [Outcome.isDone, Outcome.world]
  | DisconnectInterrupt =>
    revert h
    simp only [PinOp.run, DisconnectInterrupt, Op.bind_apply, assert, getPin, modifyPin, emit]
    split_ifs <;> simp_all [Outcome.isDone, Outcome.world]
  | EnableInterrupt Interrupt =>
    revert h
    simp only [PinOp.run, EnableInterrupt, Op.bind_apply, assert, getPin, modifyPin, read32,
      write32]
    split_ifs <;> simp_all [Outcome.isDone, Outcome.world]
  | DisableInterrupt =>
    revert h
    simp only [PinOp.run, DisableInterrupt, Op.bind_apply, assert, getPin, modifyPin, read32,
      write32]
    split_ifs <;> simp_all [Outcome.isDone, Outcome.world]
  | InterruptHandler =>
    revert h
    simp only [PinOp.run, InterruptHandler, Op.bind_apply, assert, getPin, emit]
    split_ifs <;> simp_all [Outcome.isDone, Outcome.world]

/-- The worlds a successful sequence of public operations leads to are
reachable. -/
theorem Reachable.of_runOps {M : RegMap} (ops : List PinOp) :
    ∀ (w w1 : World), Reachable M w → runOps M ops w = Outcome.done () w1 → Reachable M w1 := by
  induction ops with
  | nil =>
    intro w w1 hr h
    simp only [Circle.runOps, Op.pure_apply, Outcome.done.injEq, true_and] at h
    exact h ▸ hr
  | cons op ops ih =>
    intro w w1 hr h
    simp only [Circle.runOps, Op.bind_apply] at h
    cases hrun : op.run M w with
    | done a w2 =>
      rw [hrun] at h
      exact ih w2 w1 (ReachableBy.step w op w2 hr trivial hrun) h
    | abort w2 =>
      rw [hrun] at h
      cases h

/-- The sample world after construction is reachable. -/
theorem constructedWorld_reachable : Reachable bcm2835 constructedWorld :=
  ReachableBy.construct 17 TGPIOMode.GPIOModeInput 1 7 0 (fun _ => 0) constructedWorld rfl

/-- Every operation but `SetMode` keeps the mode an input mode while an edge
kind is enabled: in every world reachable from construction by successful
public operations among which `SetMode` is called only while no edge kind is
enabled or with an input mode as its target, an enabled edge kind implies that
the mode is one of the three input modes. -/
theorem input_mode_kept_by_other_operations (M : RegMap) (w : World)
    (hr : ReachableBy M modeKeptWhileEnabled w)
    (he : w.pin.m_Interrupt ≠ TGPIOInterrupt.GPIOInterruptUnknown) :
    isInputMode w.pin.m_Mode = true := by
  induction hr with
  | construct nPin Mode pManager nValue0 pParam0 regs w hc =>
    have hp := (CGPIOPin_pin M nPin Mode pManager nValue0 pParam0 regs).2
    rw [hc] at hp
    exact absurd hp he
  | step w op w1 _ hallow hrun ih =>
    have hd : (op.run M w).isDone = true := by rw [hrun]; rfl
    have hp := run_pin M w op hd
    rw [hrun] at hp
    cases op <;> simp only [Outcome.world, modeKeptWhileEnabled] at hp hallow
    case SetMode Mode bInitPin =>
      rw [hp.1]
      rcases hallow with h0 | h0
      · exact absurd (hp.2.2.trans h0) he
      · exact h0
    case EnableInterrupt Interrupt =>
      rw [hp.1]
      exact hp.2.2.2
    case DisableInterrupt => exact absurd hp.2.2 he
    case DisconnectInterrupt => exact absurd (hp.2.1.trans hp.2.2) he
    case ConnectInterrupt pHandler pParam => exact absurd (hp.2.1.trans hp.2.2) he
    all_goals
      rw [hp.1]
      exact ih (hp.2.2 ▸ he)
  | hardware w regs _ ih => exact ih he

/-- The constructed pin 17 with handler connected and rising edge enabled is
in an input mode. -/
theorem input_mode_kept_by_other_operations_witness :
    ReachableBy bcm2835 modeKeptWhileEnabled enabledWorld
    ∧ enabledWorld.pin.m_Interrupt ≠ TGPIOInterrupt.GPIOInterruptUnknown
    ∧ isInputMode enabledWorld.pin.m_Mode = true :=
  have hr : ReachableBy bcm2835 modeKeptWhileEnabled enabledWorld :=
    ReachableBy.step _ (PinOp.EnableInterrupt TGPIOInterrupt.GPIOInterruptOnRisingEdge) _
      (ReachableBy.step _ (PinOp.ConnectInterrupt 64 5) _
        (ReachableBy.construct 17 TGPIOMode.GPIOModeInput 1 7 0 (fun _ => 0) constructedWorld rfl)
        trivial rfl)
      trivial rfl
  ⟨hr, by decide, input_mode_kept_by_other_operations bcm2835 enabledWorld hr (by decide)⟩

/-- C12 fails on the code: `SetMode` asserts nothing about `m_Interrupt`.  Pin
17, constructed as an input, with handler 64 connected and the rising edge
enabled, accepts `SetMode (GPIOModeOutput, FALSE)`.  The world it reaches is
reachable, has the rising edge enabled and the mode output, and bit 17 of the
enable register 0x2020004C is still set, while `InterruptHandler`,
`DisableInterrupt` and `DisconnectInterrupt` are all rejected there by their
assertion of an input mode. -/
theorem SetMode_unguarded_while_enabled :
    (SetMode bcm2835 TGPIOMode.GPIOModeOutput false enabledWorld).isDone = true
    ∧ (SetMode bcm2835 TGPIOMode.GPIOModeOutput false enabledWorld).world.pin
        = enabledOutputWorld.pin
    ∧ Reachable bcm2835 enabledOutputWorld
    ∧ enabledOutputWorld.pin.m_Interrupt = TGPIOInterrupt.GPIOInterruptOnRisingEdge
    ∧ enabledOutputWorld.pin.m_Mode = TGPIOMode.GPIOModeOutput
    ∧ isInputMode enabledOutputWorld.pin.m_Mode = false
    ∧ regBit enabledOutputWorld.regs 0x2020004C 17 = true
    ∧ (InterruptHandler enabledOutputWorld).isDone = false
    ∧ (DisableInterrupt bcm2835 enabledOutputWorld).isDone = false
    ∧ (DisconnectInterrupt enabledOutputWorld).isDone = false :=
  ⟨by decide, by decide,
    Reachable.of_runOps [PinOp.SetMode TGPIOMode.GPIOModeOutput false] enabledWorld
      enabledOutputWorld
      (Reachable.of_runOps
        [PinOp.ConnectInterrupt 64 5,
         PinOp.EnableInterrupt TGPIOInterrupt.GPIOInterruptOnRisingEdge]
        constructedWorld enabledWorld constructedWorld_reachable rfl) rfl,
    by decide, by decide, by decide, by decide, by decide, by decide, by decide⟩

/-- C13: in every world reachable from construction by successful public
operations, an enabled edge kind implies that a handler is set. -/
theorem handler_set_while_enabled (M : RegMap) (w : World) (hr : Reachable M w)
    (he : w.pin.m_Interrupt ≠ TGPIOInterrupt.GPIOInterruptUnknown) :
    w.pin.m_pHandler ≠ 0 := by
  unfold Reachable at hr
  induction hr with
  | construct nPin Mode pManager nValue0 pParam0 regs w hc =>
    have hp := (CGPIOPin_pin M nPin Mode pManager nValue0 pParam0 regs).2
    rw [hc] at hp
    exact absurd hp he
  | step w op w1 _ _ hrun ih =>
    have hd : (op.run M w).isDone = true := by rw [hrun]; rfl
    have hp := run_pin M w op hd
    rw [hrun] at hp
    cases op <;> simp only [Outcome.world] at hp
    case EnableInterrupt Interrupt =>
      rw [hp.2.1]
      exact hp.2.2.1
    case DisableInterrupt => exact absurd hp.2.2 he
    case DisconnectInterrupt => exact absurd (hp.2.1.trans hp.2.2) he
    case ConnectInterrupt pHandler pParam => exact absurd (hp.2.1.trans hp.2.2) he
    case SetMode Mode bInitPin =>
      rw [hp.2.1]
      exact ih (hp.2.2 ▸ he)
    all_goals
      rw [hp.2.1]
      exact ih (hp.2.2 ▸ he)
  | hardware w regs _ ih => exact ih he

/-- Witness: the constructed pin 17 with handler 64 connected and the rising
edge enabled. -/
theorem handler_set_while_enabled_witness :
    Reachable bcm2835 enabledWorld
    ∧ enabledWorld.pin.m_Interrupt ≠ TGPIOInterrupt.GPIOInterruptUnknown
    ∧ enabledWorld.pin.m_pHandler ≠ 0 :=
  have hr : Reachable bcm2835 enabledWorld :=
    Reachable.of_runOps
      [PinOp.ConnectInterrupt 64 5,
       PinOp.EnableInterrupt TGPIOInterrupt.GPIOInterruptOnRisingEdge]
      constructedWorld enabledWorld constructedWorld_reachable rfl
  ⟨hr, by decide, handler_set_while_enabled bcm2835 enabledWorld hr (by decide)⟩

/-- C14: on a pin with an edge kind enabled, `EnableInterrupt` is rejected for
every edge kind and `DisconnectInterrupt` is rejected; on a pin that has a
handler, `ConnectInterrupt` is rejected.  Each leaves the world as it was, so
the enabled kind and the handler stay. -/
theorem interrupt_state_rejected (M : RegMap) (we wc : World) (e : TGPIOInterrupt)
    (pHandler pParam : Nat)
    (he : we.pin.m_Interrupt ≠ TGPIOInterrupt.GPIOInterruptUnknown)
    (hc : wc.pin.m_pHandler ≠ 0) :
    EnableInterrupt M e we = Outcome.abort we
    ∧ DisconnectInterrupt we = Outcome.abort we
    ∧ ConnectInterrupt pHandler pParam wc = Outcome.abort wc := by
  refine ⟨?_, ?_, ?_⟩
  · simp only [EnableInterrupt, Op.bind_apply, assert, getPin, modifyPin, read32, write32]
    split_ifs <;> simp_all
  · simp only [DisconnectInterrupt, Op.bind_apply, assert, getPin, modifyPin, emit]
    split_ifs <;> simp_all
  · simp only [ConnectInterrupt, Op.bind_apply, assert, getPin, modifyPin, emit]
    split_ifs <;> simp_all

/-- Witness: pin 17 with the rising edge enabled, and pin 17 with handler 64
connected. -/
theorem interrupt_state_rejected_witness :
    (freshWorld enabledPin).pin.m_Interrupt ≠ TGPIOInterrupt.GPIOInterruptUnknown
    ∧ (freshWorld connectedPin).pin.m_pHandler ≠ 0
    ∧ EnableInterrupt bcm2835 TGPIOInterrupt.GPIOInterruptOnFallingEdge (freshWorld enabledPin)
        = Outcome.abort (freshWorld enabledPin)
    ∧ DisconnectInterrupt (freshWorld enabledPin) = Outcome.abort (freshWorld enabledPin)
    ∧ ConnectInterrupt 128 9 (freshWorld connectedPin) = Outcome.abort (freshWorld connectedPin) :=
  ⟨by decide, by decide,
    interrupt_state_rejected bcm2835 (freshWorld enabledPin) (freshWorld connectedPin)
      TGPIOInterrupt.GPIOInterruptOnFallingEdge 128 9 (by decide) (by decide)⟩

/-! ## Inversion of the output level -/

/-- C18 fails on the code: pin 17 constructed as an input, the member
`m_nValue` (which the constructor does not initialise) holding 7, then
switched to output by `SetMode (GPIOModeOutput, FALSE)`, is a reachable world
in output mode in which `Invert` is rejected: it calls `Write (7 ^ 1)`, whose
`assert (nValue == LOW || nValue == HIGH)` fails after the first barrier. -/
theorem Invert_rejected_on_stale_level :
    Reachable bcm2835 staleOutputWorld
    ∧ staleOutputWorld.pin = staleOutputPin
    ∧ staleOutputWorld.pin.m_Mode = TGPIOMode.GPIOModeOutput
    ∧ staleOutputWorld.pin.m_nValue = 7
    ∧ (Invert bcm2835 staleOutputWorld).isDone = false
    ∧ emitted (Invert bcm2835) staleOutputWorld = [Effect.barrier] :=
  ⟨Reachable.of_runOps [PinOp.SetMode TGPIOMode.GPIOModeOutput false] constructedWorld
      staleOutputWorld constructedWorld_reachable rfl,
    by decide, by decide, by decide, by decide, by decide⟩

/-! ## Bits of the register words -/

/-- Or-ing a single bit into a word sets that bit and keeps the others. -/
theorem regBit_set (v n i : Nat) (hn : n < 32) :
    (u32 (u32 (u32 v ||| u32 (1 <<< n)))).testBit i
      = (decide (i = n) || (u32 v).testBit i) := by
  have e32 : (4294967296 : Nat) = 2 ^ 32 := by norm_num
  rw [u32_one_shiftLeft hn, Nat.one_shiftLeft]
  simp only [u32, e32, Nat.testBit_mod_two_pow, Nat.testBit_or, Nat.testBit_two_pow]
  by_cases hi : i < 32
  · by_cases hin : n = i
    · subst hin
      simp [hi]
    · have hin2 : ¬ i = n := fun h => hin h.symm
      simp [hi, hin, hin2]
  · have hin : ¬ i = n := by omega
    simp [hi, hin]

/-- And-ing a word with the complement of a single bit clears that bit and
keeps the others. -/
theorem regBit_clear (v n i : Nat) (hn : n < 32) :
    (u32 (u32 (u32 v &&& not32 (u32 (1 <<< n))))).testBit i
      = (!decide (i = n) && (u32 v).testBit i) := by
  have e32 : (4294967296 : Nat) = 2 ^ 32 := by norm_num
  have e31 : (4294967295 : Nat) = 2 ^ 32 - 1 := by norm_num
  rw [u32_one_shiftLeft hn, Nat.one_shiftLeft]
  simp only [u32, not32, e32, e31, Nat.testBit_mod_two_pow, Nat.testBit_and, Nat.testBit_xor,
    Nat.testBit_two_pow, Nat.testBit_two_pow_sub_one]
  by_cases hi : i < 32
  · by_cases hin : n = i
    · subst hin
      simp [hi]
    · have hin2 : ¬ i = n := fun h => hin h.symm
      simp [hi, hin, hin2]
  · simp [hi]

/-- Replacing the 3-bit field at bit `s` of a word keeps every bit outside the
field. -/
theorem fselWord_outside (v s c i : Nat) (hc : c < 8) (hi : ¬ (s ≤ i ∧ i < s + 3)) :
    (u32 (fselWord v s c)).testBit i = (u32 v).testBit i := by
  have e32 : (4294967296 : Nat) = 2 ^ 32 := by norm_num
  have e31 : (4294967295 : Nat) = 2 ^ 32 - 1 := by norm_num
  have e7 : (7 : Nat) = 2 ^ 3 - 1 := by norm_num
  simp only [fselWord, u32, not32, e32, e31]
  rw [e7]
  simp only [Nat.testBit_and, Nat.testBit_mod_two_pow, Nat.testBit_or, Nat.testBit_xor,
    Nat.testBit_shiftLeft, Nat.testBit_two_pow_sub_one]
  by_cases h32 : i < 32
  · by_cases hs : s ≤ i
    · have h3 : ¬ i - s < 3 := by omega
      have hcb : c.testBit (i - s) = false := by
        apply Nat.testBit_eq_false_of_lt
        calc c < 2 ^ 3 := by omega
          _ ≤ 2 ^ (i - s) := Nat.pow_le_pow_right (by decide) (by omega)
      simp [h32, hs, h3, hcb]
    · have hs2 : ¬ i ≥ s := by omega
      simp [h32, hs2]
  · simp [h32]

/-! ## Pin initialisation and the function-select frame -/

/-- `SetMode` without pin initialisation, for every mode but the unknown one:
it returns, having read the function-select word of the pin and written it
back with the pin's field replaced, between two barriers. -/
theorem SetMode_plain (M : RegMap) (w : World) (Mode : TGPIOMode)
    (hM : M.WellFormed) (hp : w.pin.m_nPin < GPIO_PINS)
    (hmode : Mode ≠ TGPIOMode.GPIOModeUnknown) :
    SetMode M Mode false w = Outcome.done ()
      { pin := { w.pin with m_Mode := Mode }
        regs := Function.update w.regs (M.ARM_GPIO_GPFSEL0 + (w.pin.m_nPin / 10) * 4)
          (fselWord (w.regs (M.ARM_GPIO_GPFSEL0 + (w.pin.m_nPin / 10) * 4))
            ((w.pin.m_nPin % 10) * 3) (specFunctionSelect Mode))
        trace := w.trace ++
          [Effect.barrier,
           Effect.read (M.ARM_GPIO_GPFSEL0 + (w.pin.m_nPin / 10) * 4),
           Effect.write (M.ARM_GPIO_GPFSEL0 + (w.pin.m_nPin / 10) * 4)
            (fselWord (w.regs (M.ARM_GPIO_GPFSEL0 + (w.pin.m_nPin / 10) * 4))
              ((w.pin.m_nPin % 10) * 3) (specFunctionSelect Mode)),
           Effect.barrier] } := by
  have hb := hM.bounds
  simp only [GPIO_PINS] at hp
  have hf : u32 (M.ARM_GPIO_GPFSEL0 + (w.pin.m_nPin / 10) * 4)
      = M.ARM_GPIO_GPFSEL0 + (w.pin.m_nPin / 10) * 4 := u32_of_lt (by omega)
  cases Mode <;>
    first
    | exact absurd rfl hmode
    | simp [SetMode, SetAlternateFunction, Op.bind_apply, Op.pure_apply, assert, getPin,
        modifyPin, DataMemBarrier, read32, write32, GPIO_PINS, hp, hf, TGPIOMode.toNat,
        specFunctionSelect, FunctionMap, fselWord]

set_option maxHeartbeats 1000000 in
/-- C15: for a valid pin index and with `bInitPin` set, `SetMode` to input
applies the pull sequence with code 0, to input with pull-up with code 2, to
input with pull-down with code 1, each after the function-select write; to
output it performs `Write (LOW)`, which writes the pin's bit to the clear
register of bank `pin / 32` and leaves `m_nValue` at `LOW`.  With `bInitPin`
clear and a mode that is not an alternate function, the only register written
is the function-select register number `pin / 10`. -/
theorem SetMode_initialisation (M : RegMap) (w : World)
    (hM : M.WellFormed) (hp : w.pin.m_nPin < GPIO_PINS) :
    (SetMode M TGPIOMode.GPIOModeInput true w).isDone = true
    ∧ emitted (SetMode M TGPIOMode.GPIOModeInput true) w =
      [Effect.barrier,
       Effect.read (M.ARM_GPIO_GPFSEL0 + (w.pin.m_nPin / 10) * 4),
       Effect.write (M.ARM_GPIO_GPFSEL0 + (w.pin.m_nPin / 10) * 4)
        (fselWord (w.regs (M.ARM_GPIO_GPFSEL0 + (w.pin.m_nPin / 10) * 4))
          ((w.pin.m_nPin % 10) * 3) 0)]
      ++ pullSequence M w.pin.m_nPin 0 ++ [Effect.barrier]
    ∧ (SetMode M TGPIOMode.GPIOModeInputPullUp true w).isDone = true
    ∧ emitted (SetMode M TGPIOMode.GPIOModeInputPullUp true) w =
      [Effect.barrier,
       Effect.read (M.ARM_GPIO_GPFSEL0 + (w.pin.m_nPin / 10) * 4),
       Effect.write (M.ARM_GPIO_GPFSEL0 + (w.pin.m_nPin / 10) * 4)
        (fselWord (w.regs (M.ARM_GPIO_GPFSEL0 + (w.pin.m_nPin / 10) * 4))
          ((w.pin.m_nPin % 10) * 3) 0)]
      ++ pullSequence M w.pin.m_nPin 2 ++ [Effect.barrier]
    ∧ (SetMode M TGPIOMode.GPIOModeInputPullDown true w).isDone = true
    ∧ emitted (SetMode M TGPIOMode.GPIOModeInputPullDown true) w =
      [Effect.barrier,
       Effect.read (M.ARM_GPIO_GPFSEL0 + (w.pin.m_nPin / 10) * 4),
       Effect.write (M.ARM_GPIO_GPFSEL0 + (w.pin.m_nPin / 10) * 4)
        (fselWord (w.regs (M.ARM_GPIO_GPFSEL0 + (w.pin.m_nPin / 10) * 4))
          ((w.pin.m_nPin % 10) * 3) 0)]
      ++ pullSequence M w.pin.m_nPin 1 ++ [Effect.barrier]
    ∧ (SetMode M TGPIOMode.GPIOModeOutput true w).isDone = true
    ∧ emitted (SetMode M TGPIOMode.GPIOModeOutput true) w =
      [Effect.barrier] ++ pullSequence M w.pin.m_nPin 0 ++
      [Effect.read (M.ARM_GPIO_GPFSEL0 + (w.pin.m_nPin / 10) * 4),
       Effect.write (M.ARM_GPIO_GPFSEL0 + (w.pin.m_nPin / 10) * 4)
        (fselWord (w.regs (M.ARM_GPIO_GPFSEL0 + (w.pin.m_nPin / 10) * 4))
          ((w.pin.m_nPin % 10) * 3) 1),
       Effect.barrier,
       Effect.write (M.ARM_GPIO_GPCLR0 + (w.pin.m_nPin / 32) * 4) (1 <<< (w.pin.m_nPin % 32)),
       Effect.barrier,
       Effect.barrier]
    ∧ (SetMode M TGPIOMode.GPIOModeOutput true w).world.pin.m_nValue = LOW
    ∧ ∀ Mode : TGPIOMode, Mode.toNat < TGPIOMode.GPIOModeAlternateFunction0.toNat →
        (SetMode M Mode false w).isDone = true
        ∧ emitted (SetMode M Mode false) w =
          [Effect.barrier,
           Effect.read (M.ARM_GPIO_GPFSEL0 + (w.pin.m_nPin / 10) * 4),
           Effect.write (M.ARM_GPIO_GPFSEL0 + (w.pin.m_nPin / 10) * 4)
            (fselWord (w.regs (M.ARM_GPIO_GPFSEL0 + (w.pin.m_nPin / 10) * 4))
              ((w.pin.m_nPin % 10) * 3) (if Mode = TGPIOMode.GPIOModeOutput then 1 else 0)),
           Effect.barrier] := by
  have hb := hM.bounds
  obtain ⟨a1, a2, a3⟩ := hM.fsel_apart
  have hp0 := hp
  simp only [Apart, GPIO_PINS] at a1 a2 a3 hp
  have hf : u32 (M.ARM_GPIO_GPFSEL0 + (w.pin.m_nPin / 10) * 4)
      = M.ARM_GPIO_GPFSEL0 + (w.pin.m_nPin / 10) * 4 := u32_of_lt (by omega)
  have hc : u32 (M.ARM_GPIO_GPPUDCLK0 + (w.pin.m_nPin / 32) * 4)
      = M.ARM_GPIO_GPPUDCLK0 + (w.pin.m_nPin / 32) * 4 := u32_of_lt (by omega)
  have hl : u32 (M.ARM_GPIO_GPCLR0 + (w.pin.m_nPin / 32) * 4)
      = M.ARM_GPIO_GPCLR0 + (w.pin.m_nPin / 32) * 4 := u32_of_lt (by omega)
  have n1 : M.ARM_GPIO_GPFSEL0 + (w.pin.m_nPin / 10) * 4 ≠ M.ARM_GPIO_GPPUD := by omega
  have n2 : M.ARM_GPIO_GPFSEL0 + (w.pin.m_nPin / 10) * 4
      ≠ M.ARM_GPIO_GPPUDCLK0 + (w.pin.m_nPin / 32) * 4 := by omega
  have hbit : u32 (1 <<< (w.pin.m_nPin % 32)) = 1 <<< (w.pin.m_nPin % 32) :=
    u32_one_shiftLeft (Nat.mod_lt _ (by decide))
  have h0 : u32 0 = 0 := rfl
  have h1 : u32 1 = 1 := rfl
  have h2 : u32 2 = 2 := rfl
  refine ⟨?_, ?_, ?_, ?_, ?_, ?_, ?_, ?_, ?_, ?plain⟩
  case plain =>
    intro Mode hlt
    have hne : Mode ≠ TGPIOMode.GPIOModeUnknown := by
      intro h
      rw [h] at hlt
      exact absurd hlt (by decide)
    have hcode : specFunctionSelect Mode = if Mode = TGPIOMode.GPIOModeOutput then 1 else 0 := by
      cases Mode <;> first | rfl | exact absurd hlt (by decide)
    simp only [emitted]
    rw [SetMode_plain M w Mode hM hp0 hne, hcode]
    simp [Outcome.isDone, Outcome.world]
  all_goals
    simp [emitted, pullSequence, fselWord, SetMode, SetPullUpMode, Write, Op.bind_apply,
      Op.pure_apply, assert, getPin, modifyPin, DataMemBarrier, read32, write32, SimpleusDelay,
      GPIO_PINS, hp, hf, hc, hl, n1, n2, hbit, h0, h1, h2, Outcome.isDone, Outcome.world,
      TGPIOMode.toNat, Function.update_noteq, LOW, HIGH]

/-- Witness: pin 17 of the BCM2835 switched to input with pull-up, with pin
initialisation. -/
theorem SetMode_initialisation_witness :
    bcm2835.WellFormed ∧ (freshWorld inputPin).pin.m_nPin < GPIO_PINS
    ∧ emitted (SetMode bcm2835 TGPIOMode.GPIOModeInputPullUp true) (freshWorld inputPin) =
      [Effect.barrier, Effect.read 0x20200004, Effect.write 0x20200004 0,
       Effect.write 0x20200094 2, Effect.delay 150, Effect.write 0x20200098 0x20000,
       Effect.delay 150, Effect.write 0x20200094 0, Effect.write 0x20200098 0,
       Effect.barrier] :=
  ⟨by decide, by decide,
    (SetMode_initialisation bcm2835 (freshWorld inputPin) (by decide) (by decide)).2.2.2.1⟩

/-- C19: for a valid pin index, every mode but the unknown one and every
register content, `SetMode` without pin initialisation changes no bit of any
register outside the pin's own 3-bit field (bits `(pin % 10) * 3` to
`(pin % 10) * 3 + 2` of the function-select register number `pin / 10`), so
the function-select field of every other pin is as before. -/
theorem SetMode_keeps_other_fields (M : RegMap) (w : World) (Mode : TGPIOMode)
    (hM : M.WellFormed) (hp : w.pin.m_nPin < GPIO_PINS)
    (hmode : Mode ≠ TGPIOMode.GPIOModeUnknown) :
    (∀ a i : Nat,
      ¬ (a = M.ARM_GPIO_GPFSEL0 + (w.pin.m_nPin / 10) * 4
          ∧ (w.pin.m_nPin % 10) * 3 ≤ i ∧ i ≤ (w.pin.m_nPin % 10) * 3 + 2) →
      regBit (SetMode M Mode false w).world.regs a i = regBit w.regs a i)
    ∧ (∀ q : Nat, q < GPIO_PINS → q ≠ w.pin.m_nPin →
      fselField M (SetMode M Mode false w).world.regs q = fselField M w.regs q) := by
  have hcode : specFunctionSelect Mode < 8 := by cases Mode <;> decide
  have hbits : ∀ a i : Nat,
      ¬ (a = M.ARM_GPIO_GPFSEL0 + (w.pin.m_nPin / 10) * 4
          ∧ (w.pin.m_nPin % 10) * 3 ≤ i ∧ i ≤ (w.pin.m_nPin % 10) * 3 + 2) →
      regBit (SetMode M Mode false w).world.regs a i = regBit w.regs a i := by
    intro a i hout
    rw [SetMode_plain M w Mode hM hp hmode]
    simp only [Outcome.world, regBit]
    by_cases ha : a = M.ARM_GPIO_GPFSEL0 + (w.pin.m_nPin / 10) * 4
    · subst ha
      rw [Function.update_same]
      apply fselWord_outside _ _ _ _ hcode
      intro hi
      exact hout ⟨rfl, hi.1, by omega⟩
    · rw [Function.update_noteq ha]
  refine ⟨hbits, ?_⟩
  intro q hq hne
  simp only [GPIO_PINS] at hq hp
  apply Nat.eq_of_testBit_eq
  intro j
  have e7 : (7 : Nat) = 2 ^ 3 - 1 := by norm_num
  simp only [fselField]
  rw [e7]
  simp only [Nat.testBit_and, Nat.testBit_shiftRight, Nat.testBit_two_pow_sub_one]
  by_cases hj : j < 3
  · have := hbits (M.ARM_GPIO_GPFSEL0 + (q / 10) * 4) ((q % 10) * 3 + j) (by omega)
    simp only [regBit] at this
    rw [this]
  · simp [hj]

/-- Witness: pin 17 of the BCM2835 switched to output without pin
initialisation over a register file of all-ones words; the field of pin 16, in
the same register, still reads 7. -/
theorem SetMode_keeps_other_fields_witness :
    bcm2835.WellFormed
    ∧ ({ pin := inputPin, regs := fun _ => 0xFFFFFFFF, trace := [] } : World).pin.m_nPin
        < GPIO_PINS
    ∧ TGPIOMode.GPIOModeOutput ≠ TGPIOMode.GPIOModeUnknown
    ∧ fselField bcm2835
        (SetMode bcm2835 TGPIOMode.GPIOModeOutput false
          { pin := inputPin, regs := fun _ => 0xFFFFFFFF, trace := [] }).world.regs 16
      = fselField bcm2835 (fun _ => 0xFFFFFFFF) 16 :=
  ⟨by decide, by decide, by decide,
    (SetMode_keeps_other_fields bcm2835
      { pin := inputPin, regs := fun _ => 0xFFFFFFFF, trace := [] }
      TGPIOMode.GPIOModeOutput (by decide) (by decide) (by decide)).2 16 (by decide)
      (by decide)⟩

/-! ## Edge-enable registers -/

/-- In a well-formed map the enable register of a valid pin and one of the six
edge kinds is `GPREN0 + 4 * (pin / 32) + 12 * kind`, without wrap-around. -/
theorem enableReg_eq (M : RegMap) (hM : M.WellFormed) (nPin : Nat) (e : TGPIOInterrupt)
    (hp : nPin < GPIO_PINS) (he : e ≠ TGPIOInterrupt.GPIOInterruptUnknown) :
    enableReg M nPin e = M.ARM_GPIO_GPREN0 + 4 * (nPin / 32) + 12 * e.toNat := by
  have hb := hM.bounds
  simp only [GPIO_PINS] at hp
  have hk : e.toNat ≤ 5 := by
    cases e <;> first | exact absurd rfl he | decide
  have e0 : TGPIOInterrupt.GPIOInterruptOnRisingEdge.toNat = 0 := rfl
  rw [enableReg, e0, u32_of_lt (by omega)]
  omega

/-- The integer value of an edge kind determines the kind. -/
theorem TGPIOInterrupt.toNat_injective (e e1 : TGPIOInterrupt) (h : e.toNat = e1.toNat) :
    e = e1 := by
  cases e <;> cases e1 <;> first | rfl | exact absurd h (by decide)

/-- The result of `EnableInterrupt` on a connected pin, in terms of the enable
register of the pin and the kind. -/
theorem EnableInterrupt_world (M : RegMap) (w : World) (e : TGPIOInterrupt)
    (hp : w.pin.m_nPin < GPIO_PINS) (hmode : isInputMode w.pin.m_Mode = true)
    (hmgr : w.pin.m_pManager ≠ 0) (hh : w.pin.m_pHandler ≠ 0)
    (hi : w.pin.m_Interrupt = TGPIOInterrupt.GPIOInterruptUnknown)
    (he : e ≠ TGPIOInterrupt.GPIOInterruptUnknown) :
    EnableInterrupt M e w = Outcome.done ()
      { pin := { w.pin with m_Interrupt := e }
        regs := Function.update w.regs (enableReg M w.pin.m_nPin e)
          (u32 (u32 (w.regs (enableReg M w.pin.m_nPin e)) ||| u32 (1 <<< (w.pin.m_nPin % 32))))
        trace := w.trace ++
          [Effect.read (enableReg M w.pin.m_nPin e),
           Effect.write (enableReg M w.pin.m_nPin e)
            (u32 (u32 (w.regs (enableReg M w.pin.m_nPin e))
              ||| u32 (1 <<< (w.pin.m_nPin % 32))))] } := by
  have e0 : TGPIOInterrupt.GPIOInterruptOnRisingEdge.toNat = 0 := rfl
  rw [EnableInterrupt_done M w e hp hmode hmgr hh hi he]
  simp only [enableReg, e0, Nat.sub_zero]

/-- The result of `DisableInterrupt` on a pin with an enabled edge kind, in
terms of the enable register of the pin and the kind. -/
theorem DisableInterrupt_world (M : RegMap) (w : World)
    (hp : w.pin.m_nPin < GPIO_PINS) (hmode : isInputMode w.pin.m_Mode = true)
    (hi : w.pin.m_Interrupt ≠ TGPIOInterrupt.GPIOInterruptUnknown) :
    DisableInterrupt M w = Outcome.done ()
      { pin := { w.pin with m_Interrupt := TGPIOInterrupt.GPIOInterruptUnknown }
        regs := Function.update w.regs (enableReg M w.pin.m_nPin w.pin.m_Interrupt)
          (u32 (u32 (w.regs (enableReg M w.pin.m_nPin w.pin.m_Interrupt))
            &&& not32 (u32 (1 <<< (w.pin.m_nPin % 32)))))
        trace := w.trace ++
          [Effect.read (enableReg M w.pin.m_nPin w.pin.m_Interrupt),
           Effect.write (enableReg M w.pin.m_nPin w.pin.m_Interrupt)
            (u32 (u32 (w.regs (enableReg M w.pin.m_nPin w.pin.m_Interrupt))
              &&& not32 (u32 (1 <<< (w.pin.m_nPin % 32)))))] } := by
  have e0 : TGPIOInterrupt.GPIOInterruptOnRisingEdge.toNat = 0 := rfl
  rw [DisableInterrupt_done M w hp hmode hi]
  simp only [enableReg, e0, Nat.sub_zero]

/-- C16: for a valid pin index, one of the six edge kinds and every register
content, `EnableInterrupt` on a connected pin returns and sets bit `pin % 32`
of the register at `GPREN0 + 4 * (pin / 32) + 12 * kind`, changing no other
bit of any register; the following `DisableInterrupt` returns, clears that
same bit of that same register, changes no other bit, and resets the edge
kind to the unknown one. -/
theorem EnableInterrupt_DisableInterrupt_bit (M : RegMap) (w : World) (e : TGPIOInterrupt)
    (hM : M.WellFormed) (hp : w.pin.m_nPin < GPIO_PINS)
    (hmode : isInputMode w.pin.m_Mode = true)
    (hmgr : w.pin.m_pManager ≠ 0) (hh : w.pin.m_pHandler ≠ 0)
    (hi : w.pin.m_Interrupt = TGPIOInterrupt.GPIOInterruptUnknown)
    (he : e ≠ TGPIOInterrupt.GPIOInterruptUnknown) :
    (EnableInterrupt M e w).isDone = true
    ∧ (EnableInterrupt M e w).world.pin = { w.pin with m_Interrupt := e }
    ∧ (∀ a i : Nat, regBit (EnableInterrupt M e w).world.regs a i =
        if a = M.ARM_GPIO_GPREN0 + 4 * (w.pin.m_nPin / 32) + 12 * e.toNat
            ∧ i = w.pin.m_nPin % 32
        then true else regBit w.regs a i)
    ∧ (DisableInterrupt M (EnableInterrupt M e w).world).isDone = true
    ∧ (∀ a i : Nat,
        regBit (DisableInterrupt M (EnableInterrupt M e w).world).world.regs a i =
        if a = M.ARM_GPIO_GPREN0 + 4 * (w.pin.m_nPin / 32) + 12 * e.toNat
            ∧ i = w.pin.m_nPin % 32
        then false else regBit (EnableInterrupt M e w).world.regs a i)
    ∧ (DisableInterrupt M (EnableInterrupt M e w).world).world.pin.m_Interrupt
        = TGPIOInterrupt.GPIOInterruptUnknown := by
  have haddr := enableReg_eq M hM w.pin.m_nPin e hp he
  have hlt : w.pin.m_nPin % 32 < 32 := Nat.mod_lt _ (by decide)
  have h1 := EnableInterrupt_world M w e hp hmode hmgr hh hi he
  have h2 := DisableInterrupt_world M (EnableInterrupt M e w).world
    (by rw [h1]; exact hp) (by rw [h1]; exact hmode) (by rw [h1]; exact he)
  rw [h2]
  rw [h1]
  simp only [Outcome.world, Outcome.isDone, regBit]
  rw [haddr]
  refine ⟨trivial, trivial, ?_, trivial, ?_, trivial⟩
  · intro a i
    by_cases ha : a = M.ARM_GPIO_GPREN0 + 4 * (w.pin.m_nPin / 32) + 12 * e.toNat
    · subst ha
      rw [Function.update_same, regBit_set _ _ _ hlt]
      by_cases hin : i = w.pin.m_nPin % 32 <;> simp [hin]
    · rw [Function.update_noteq ha]
      simp [ha]
  · intro a i
    by_cases ha : a = M.ARM_GPIO_GPREN0 + 4 * (w.pin.m_nPin / 32) + 12 * e.toNat
    · subst ha
      rw [Function.update_same, Function.update_same, regBit_clear _ _ _ hlt]
      by_cases hin : i = w.pin.m_nPin % 32 <;> simp [hin]
    · rw [Function.update_noteq ha, Function.update_noteq ha]
      simp [ha]

/-- Witness: rising edge on pin 17 of the BCM2835, connected with handler 64,
over an all-zero register file: bit 17 of the register at 0x2020004C is set
after `EnableInterrupt`. -/
theorem EnableInterrupt_DisableInterrupt_bit_witness :
    bcm2835.WellFormed ∧ (freshWorld connectedPin).pin.m_nPin < GPIO_PINS
    ∧ isInputMode (freshWorld connectedPin).pin.m_Mode = true
    ∧ (freshWorld connectedPin).pin.m_pManager ≠ 0
    ∧ (freshWorld connectedPin).pin.m_pHandler ≠ 0
    ∧ (freshWorld connectedPin).pin.m_Interrupt = TGPIOInterrupt.GPIOInterruptUnknown
    ∧ TGPIOInterrupt.GPIOInterruptOnRisingEdge ≠ TGPIOInterrupt.GPIOInterruptUnknown
    ∧ regBit (EnableInterrupt bcm2835 TGPIOInterrupt.GPIOInterruptOnRisingEdge
        (freshWorld connectedPin)).world.regs 0x2020004C 17 = true :=
  ⟨by decide, by decide, by decide, by decide, by decide, by decide, by decide,
    (EnableInterrupt_DisableInterrupt_bit bcm2835 (freshWorld connectedPin)
      TGPIOInterrupt.GPIOInterruptOnRisingEdge (by decide) (by decide) (by decide) (by decide)
      (by decide) (by decide) (by decide)).2.2.1 0x2020004C 17⟩

/-- C20: for valid pin indices and the six edge kinds, the register that
`EnableInterrupt` and `DisableInterrupt` select, at offset
`4 * (pin / 32) + 12 * kind` from `GPREN0`, is the same for two pins and kinds
only if bank `pin / 32` and kind are the same; so the two operations leave the
enable register of every other bank or kind as it was. -/
theorem enableReg_injective (M : RegMap) (w : World) (q : Nat) (e e1 : TGPIOInterrupt)
    (hM : M.WellFormed) (hp : w.pin.m_nPin < GPIO_PINS) (hq : q < GPIO_PINS)
    (he : e ≠ TGPIOInterrupt.GPIOInterruptUnknown)
    (he1 : e1 ≠ TGPIOInterrupt.GPIOInterruptUnknown) :
    enableReg M w.pin.m_nPin e = M.ARM_GPIO_GPREN0 + 4 * (w.pin.m_nPin / 32) + 12 * e.toNat
    ∧ (enableReg M w.pin.m_nPin e = enableReg M q e1 ↔ w.pin.m_nPin / 32 = q / 32 ∧ e = e1)
    ∧ (¬ (w.pin.m_nPin / 32 = q / 32 ∧ e = e1) →
        (EnableInterrupt M e w).world.regs (enableReg M q e1) = w.regs (enableReg M q e1))
    ∧ (w.pin.m_Interrupt = e → ¬ (w.pin.m_nPin / 32 = q / 32 ∧ e = e1) →
        (DisableInterrupt M w).world.regs (enableReg M q e1) = w.regs (enableReg M q e1)) := by
  have hinj : enableReg M w.pin.m_nPin e = enableReg M q e1
      ↔ w.pin.m_nPin / 32 = q / 32 ∧ e = e1 := by
    rw [enableReg_eq M hM _ e hp he, enableReg_eq M hM q e1 hq he1]
    simp only [GPIO_PINS] at hp hq
    constructor
    · intro h
      have hk : e.toNat = e1.toNat := by omega
      exact ⟨by omega, TGPIOInterrupt.toNat_injective e e1 hk⟩
    · rintro ⟨hb, hk⟩
      rw [hb, hk]
  refine ⟨enableReg_eq M hM _ e hp he, hinj, ?_, ?_⟩
  · intro hne
    have hne2 : enableReg M q e1 ≠ enableReg M w.pin.m_nPin e := fun h => hne (hinj.1 h.symm)
    simp only [enableReg] at hne2
    simp only [EnableInterrupt, Op.bind_apply, assert, getPin, modifyPin, read32, write32,
      enableReg]
    split_ifs <;> simp [Outcome.world, Function.update_noteq hne2]
  · intro hi hne
    have hne2 : enableReg M q e1 ≠ enableReg M w.pin.m_nPin w.pin.m_Interrupt := by
      rw [hi]
      exact fun h => hne (hinj.1 h.symm)
    simp only [enableReg] at hne2
    simp only [DisableInterrupt, Op.bind_apply, assert, getPin, modifyPin, read32, write32,
      enableReg]
    split_ifs <;> simp [Outcome.world, Function.update_noteq hne2]

/-- Witness: pin 17 (bank 0) with the rising edge against pin 40 (bank 1) with
the rising edge on the BCM2835: the registers differ. -/
theorem enableReg_injective_witness :
    bcm2835.WellFormed ∧ (freshWorld connectedPin).pin.m_nPin < GPIO_PINS ∧ 40 < GPIO_PINS
    ∧ TGPIOInterrupt.GPIOInterruptOnRisingEdge ≠ TGPIOInterrupt.GPIOInterruptUnknown
    ∧ (enableReg bcm2835 (freshWorld connectedPin).pin.m_nPin
          TGPIOInterrupt.GPIOInterruptOnRisingEdge
        = enableReg bcm2835 40 TGPIOInterrupt.GPIOInterruptOnRisingEdge
      ↔ (freshWorld connectedPin).pin.m_nPin / 32 = 40 / 32
        ∧ TGPIOInterrupt.GPIOInterruptOnRisingEdge = TGPIOInterrupt.GPIOInterruptOnRisingEdge) :=
  ⟨by decide, by decide, by decide, by decide,
    (enableReg_injective bcm2835 (freshWorld connectedPin) 40
      TGPIOInterrupt.GPIOInterruptOnRisingEdge TGPIOInterrupt.GPIOInterruptOnRisingEdge
      (by decide) (by decide) (by decide) (by decide) (by decide)).2.1⟩

/-! ## Write followed by Invert -/

/-- C17: for a valid pin index in output mode and a level `LOW` or `HIGH`,
`Write` of the level followed by `Invert` returns with the complement of the
level cached in `m_nValue`, having written the pin's bit `1 << (pin % 32)`
first to the register of the level and then to the opposite one (the set
register of bank `pin / 32` after a `LOW`, the clear register after a `HIGH`);
a second `Invert` returns with the level itself cached again. -/
theorem Write_then_Invert (M : RegMap) (w : World) (nValue : Nat)
    (hM : M.WellFormed) (hp : w.pin.m_nPin < GPIO_PINS)
    (hmode : w.pin.m_Mode = TGPIOMode.GPIOModeOutput)
    (hv : nValue = LOW ∨ nValue = HIGH) :
    (runOps M [PinOp.Write nValue, PinOp.Invert] w).isDone = true
    ∧ (runOps M [PinOp.Write nValue, PinOp.Invert] w).world.pin
        = { w.pin with m_nValue := if nValue = LOW then HIGH else LOW }
    ∧ emitted (runOps M [PinOp.Write nValue, PinOp.Invert]) w =
      [Effect.barrier,
       Effect.write
        ((if nValue = LOW then M.ARM_GPIO_GPCLR0 else M.ARM_GPIO_GPSET0)
          + (w.pin.m_nPin / 32) * 4) (1 <<< (w.pin.m_nPin % 32)),
       Effect.barrier,
       Effect.barrier,
       Effect.write
        ((if nValue = LOW then M.ARM_GPIO_GPSET0 else M.ARM_GPIO_GPCLR0)
          + (w.pin.m_nPin / 32) * 4) (1 <<< (w.pin.m_nPin % 32)),
       Effect.barrier]
    ∧ (runOps M [PinOp.Write nValue, PinOp.Invert, PinOp.Invert] w).isDone = true
    ∧ (runOps M [PinOp.Write nValue, PinOp.Invert, PinOp.Invert] w).world.pin
        = { w.pin with m_nValue := nValue } := by
  have hb := hM.bounds
  simp only [GPIO_PINS] at hp
  have hs : u32 (M.ARM_GPIO_GPSET0 + (w.pin.m_nPin / 32) * 4)
      = M.ARM_GPIO_GPSET0 + (w.pin.m_nPin / 32) * 4 := u32_of_lt (by omega)
  have hc : u32 (M.ARM_GPIO_GPCLR0 + (w.pin.m_nPin / 32) * 4)
      = M.ARM_GPIO_GPCLR0 + (w.pin.m_nPin / 32) * 4 := u32_of_lt (by omega)
  have hbit : u32 (1 <<< (w.pin.m_nPin % 32)) = 1 <<< (w.pin.m_nPin % 32) :=
    u32_one_shiftLeft (Nat.mod_lt _ (by decide))
  have x0 : (0 : Nat) ^^^ 1 = 1 := rfl
  have x1 : (1 : Nat) ^^^ 1 = 0 := rfl
  rcases hv with h | h <;> subst h <;>
    simp [runOps, PinOp.run, emitted, Write, Invert, Op.bind_apply, Op.pure_apply, assert, getPin,
      modifyPin, DataMemBarrier, write32, GPIO_PINS, hp, hs, hc, hbit, hmode, x0, x1,
      Outcome.isDone, Outcome.world, TGPIOMode.toNat, LOW, HIGH]

/-- Witness: a low level written on pin 17 as an output, then inverted: the
second write goes to the set register 0x2020001C. -/
theorem Write_then_Invert_witness :
    bcm2835.WellFormed ∧ (freshWorld outputPin).pin.m_nPin < GPIO_PINS
    ∧ (freshWorld outputPin).pin.m_Mode = TGPIOMode.GPIOModeOutput
    ∧ (LOW = LOW ∨ LOW = HIGH)
    ∧ emitted (runOps bcm2835 [PinOp.Write LOW, PinOp.Invert]) (freshWorld outputPin) =
      [Effect.barrier, Effect.write 0x20200028 0x20000, Effect.barrier,
       Effect.barrier, Effect.write 0x2020001C 0x20000, Effect.barrier] :=
  ⟨by decide, by decide, by decide, by decide,
    (Write_then_Invert bcm2835 (freshWorld outputPin) LOW (by decide) (by decide) (by decide)
      (by decide)).2.2.1⟩

end Circle
